import Mathlib

/-!
# stdexec `concepts.hpp`: a shallow embedding of the capability predicates

`include/stdexec/concepts.hpp` defines compile-time predicates over C++ types.
The embedding has three layers.

* `CppType` is the language of types the predicates range over, with the
  type-forming operations the header applies to its template parameters
  (`_Ty&`, `_Ty&&`, `const _Ty`, `decay_t<_Ty>`, ...).
* `World` records what the translation unit and the toolchain answer to the
  expression probes that the header delegates to the compiler (is this
  initialisation well-formed, what is the type of this assignment, which
  `swap` does argument-dependent lookup find, ...).
* The predicates of the header are Lean functions into `Bool` over a `World`,
  written conjunct for conjunct as in the source.
-/

namespace Stdexec

/-! ## Types -/

/-- C++ types. Only `const` qualification is tracked. A `const` array is
represented, as in the language, by an array of `const` elements. -/
inductive CppType where
  | void
  | scalar (id : Nat)
  | cls (id : Nat)
  | inst (shape : Nat) (args : List CppType)
  | func (id : Nat)
  | ptr (t : CppType)
  | const (t : CppType)
  | lref (t : CppType)
  | rref (t : CppType)
  | array (t : CppType) (n : Nat)
  | unbounded (t : CppType)
deriving Repr, Inhabited

namespace CppType

mutual
/-- Structural identity of two types: the partial specialisation
`__same_as<_A, _A>` is selected exactly when this holds. -/
def same : CppType → CppType → Bool
  | .void, .void => true
  | .scalar a, .scalar b => a == b
  | .cls a, .cls b => a == b
  | .inst s as, .inst t bs => s == t && sameList as bs
  | .func a, .func b => a == b
  | .ptr a, .ptr b => same a b
  | .const a, .const b => same a b
  | .lref a, .lref b => same a b
  | .rref a, .rref b => same a b
  | .array a n, .array b m => same a b && n == m
  | .unbounded a, .unbounded b => same a b
  | _, _ => false
/-- Structural identity of two template argument lists. -/
def sameList : List CppType → List CppType → Bool
  | [], [] => true
  | a :: as, b :: bs => same a b && sameList as bs
  | _, _ => false
end

end CppType

def int_ : CppType := .scalar 0
def float_ : CppType := .scalar 1
def double_ : CppType := .scalar 2
def bool_ : CppType := .scalar 3

/-- Whether the type is `void` or `const void`. -/
def is_void : CppType → Bool
  | .void => true
  | .const .void => true
  | _ => false

/-- Whether the type is a reference, as `std::is_reference_v`. -/
def is_reference : CppType → Bool
  | .lref _ => true
  | .rref _ => true
  | _ => false

/-- Whether the type is a function type. -/
def is_function : CppType → Bool
  | .func _ => true
  | _ => false

/-- The type `_Ty&`: references collapse, and there is no reference to `void`. -/
def add_lref : CppType → Option CppType
  | .lref t => some (.lref t)
  | .rref t => some (.lref t)
  | t => if is_void t then none else some (.lref t)

/-- The type `_Ty&&`: references collapse, and there is no reference to `void`. -/
def add_rref : CppType → Option CppType
  | .lref t => some (.lref t)
  | .rref t => some (.rref t)
  | t => if is_void t then none else some (.rref t)

/-- The type `const _Ty`: ignored on references and functions, idempotent,
and applied to the elements of an array. -/
def add_const : CppType → CppType
  | .lref t => .lref t
  | .rref t => .rref t
  | .func i => .func i
  | .const t => .const t
  | .array t n => .array (add_const t) n
  | .unbounded t => .unbounded (add_const t)
  | t => .const t

/-- The trait `std::remove_reference_t<_Ty>`. -/
def remove_reference_t : CppType → CppType
  | .lref t => t
  | .rref t => t
  | t => t

/-- Removal of the top-level `const` (of the elements, for an array). -/
def remove_const : CppType → CppType
  | .const t => t
  | .array t n => .array (remove_const t) n
  | .unbounded t => .unbounded (remove_const t)
  | t => t

/-- The trait `std::decay_t<_Ty>`: strip the reference, turn an array into
a pointer to its element and a function into a pointer to it, otherwise
strip the qualifier. -/
def decay_t (T : CppType) : CppType :=
  match remove_reference_t T with
  | .array e _ => .ptr e
  | .unbounded e => .ptr e
  | .func i => .ptr (.func i)
  | U => remove_const U

/-- Whether the type is an array type, of known or unknown bound. -/
def is_array : CppType → Bool
  | .array _ _ => true
  | .unbounded _ => true
  | _ => false

/-- The trait `std::is_object_v<_Ty>`: not a function, a reference or `void`. -/
def is_object_v (T : CppType) : Bool :=
  !is_function T && !is_reference T && !is_void T

/-- Whether the type is a class type (here: a class or a class template
specialisation, unqualified or `const`). -/
def is_class_type : CppType → Bool
  | .cls _ => true
  | .inst _ _ => true
  | .const (.cls _) => true
  | .const (.inst _ _) => true
  | _ => false

/-! ## Expressions -/

/-- Value category of an expression. -/
inductive Cat where
  | lvalue
  | xvalue
  | prvalue
deriving DecidableEq, Repr

/-- An expression as a probe sees it: value category and non-reference type. -/
structure Expr where
  cat : Cat
  ty : CppType
deriving Repr

/-- The expression `std::declval<_Ty>()`: a call of a function returning
`_Ty&&` (returning `void` when `_Ty` is `void`). -/
def declval : CppType → Expr
  | .lref u => ⟨.lvalue, u⟩
  | .rref (.func i) => ⟨.lvalue, .func i⟩
  | .rref u => ⟨.xvalue, u⟩
  | .func i => ⟨.lvalue, .func i⟩
  | t => if is_void t then ⟨.prvalue, t⟩ else ⟨.xvalue, t⟩

/-- The expression `(_Ty&&) __t` for a requirement parameter `_Ty&& __t`, and
likewise a call of a function of type `_Ty&& (*)()`: ill-formed when `_Ty&&`
is not a type, an lvalue when `_Ty&&` is an lvalue reference or a reference to
function, an xvalue otherwise. -/
def forward_expr (T : CppType) : Option Expr :=
  match add_rref T with
  | some _ => some (declval T)
  | none => none

/-- The id-expression naming a requirement parameter declared `_Ty __p`: an
lvalue of the referred or declared type; array and function parameters are
adjusted to pointers; a parameter of type `void` is ill-formed. -/
def param_expr : CppType → Option Expr
  | .lref u => some ⟨.lvalue, u⟩
  | .rref u => some ⟨.lvalue, u⟩
  | .array e _ => some ⟨.lvalue, .ptr e⟩
  | .unbounded e => some ⟨.lvalue, .ptr e⟩
  | .func i => some ⟨.lvalue, .ptr (.func i)⟩
  | t => if is_void t then none else some ⟨.lvalue, t⟩

/-- The six comparison operators. -/
inductive CmpOp where
  | eq
  | ne
  | lt
  | gt
  | le
  | ge
deriving DecidableEq, Repr

/-! ## Build configuration and the compiler's answers -/

/-- The compiler family seen by `#if defined(__clang__)` / `#elif defined(__GNUC__)`. -/
inductive Compiler where
  | clang
  | gnuc
  | other
deriving DecidableEq, Repr

/-- The capability probes evaluated by the preprocessor. -/
structure Config where
  compiler : Compiler
  has_std_concepts_header : Bool
  has_builtin_is_constructible : Bool
  has_builtin_is_nothrow_constructible : Bool
deriving DecidableEq, Repr

/-- What the translation unit under compilation answers to the expression
probes of the header. Each field is the compiler's verdict on one kind of
expression; `none` stands for an ill-formed expression. -/
structure World where
  /-- The build configuration. -/
  cfg : Config
  /-- The destructor call `e.~_Ty()` on an expression of type `_Ty`:
  `some n` when well-formed, `n` telling whether it is `noexcept`. -/
  destructor_call : CppType → Option Bool
  /-- The variable definition `_Ty t(args...)` that `__is_constructible` and
  `std::is_constructible_v` test: `some n` when well-formed, `n` telling
  whether it is known not to throw. -/
  init : CppType → List Expr → Option Bool
  /-- The expression `_Ty{}`. -/
  brace_init : CppType → Bool
  /-- The expression `::new _Ty`. -/
  new_expr : CppType → Bool
  /-- The assignment `lhs = rhs`: the type `decltype((lhs = rhs))` and whether
  the assignment is `noexcept`. -/
  assign : Expr → Expr → Option (CppType × Bool)
  /-- Argument-dependent lookup for the unqualified call `swap(a, b)`:
  `some n` when an overload associated with the argument types is found and
  overload resolution selects it, `n` telling whether it is `noexcept`;
  `none` when no associated overload applies, which leaves `std::swap`. -/
  adl_swap : Expr → Expr → Option Bool
  /-- The comparison `a op b`: the type `decltype((a op b))`. -/
  compare : CmpOp → Expr → Expr → Option CppType
  /-- The trait `std::is_convertible_v<_From, _To>`. -/
  is_convertible_v : CppType → CppType → Bool
  /-- The expression `static_cast<_To>(e)`. -/
  static_cast_ok : Expr → CppType → Bool
  /-- The concept `std::equality_comparable` of the standard library. -/
  std_equality_comparable : CppType → Bool

/-! ## `same_as` -/

/-- Compiler builtin `__is_same(A, B)` of clang: type identity. -/
def __is_same (A B : CppType) : Bool := CppType.same A B

/-- Compiler builtin `__is_same_as(A, B)` of GCC: type identity. -/
def __is_same_as (A B : CppType) : Bool := CppType.same A B

/-- The `#else` branch: the primary template is `false`, and the partial
specialisation `__same_as<_A, _A>`, selected when both arguments are one
type, is `true`. -/
def __same_as_specialization (A B : CppType) : Bool :=
  if CppType.same A B then true else false

/-- The primitive `__same_as<_A, _B>`, one branch per compiler family. -/
def __same_as (cfg : Config) (A B : CppType) : Bool :=
  match cfg.compiler with
  | .clang => __is_same A B
  | .gnuc => __is_same_as A B
  | .other => __same_as_specialization A B

/-- The shape of the public concept over an arbitrary primitive `p`:
`p<_A, _B> && p<_B, _A>`. -/
def same_as_over (p : CppType → CppType → Bool) (A B : CppType) : Bool :=
  p A B && p B A

/-- The concept `same_as<_A, _B> = __same_as<_A, _B> && __same_as<_B, _A>`. -/
def same_as (cfg : Config) (A B : CppType) : Bool :=
  same_as_over (__same_as cfg) A B

/-! ## Combinators over `__same_as` -/

/-- The concept `__decays_to<_Ty, _U> = __same_as<decay_t<_Ty>, _U>`. -/
def __decays_to (cfg : Config) (T U : CppType) : Bool :=
  __same_as cfg (decay_t T) U

/-- The concept `__class<_C>`: `int _C::*` is a type, and `const _C` is not `_C`. -/
def __class (cfg : Config) (C : CppType) : Bool :=
  is_class_type C && !__same_as cfg (add_const C) C

/-- The fold `(__same_as<_Ty, _As> || ...)`; the empty fold is `false`. -/
def __one_of (cfg : Config) (T : CppType) (As : List CppType) : Bool :=
  As.foldr (fun A acc => __same_as cfg T A || acc) false

/-- The fold `(__same_as<_Ty, _Us> && ...)`; the empty fold is `true`. -/
def __all_of (cfg : Config) (T : CppType) (Us : List CppType) : Bool :=
  Us.foldr (fun U acc => __same_as cfg T U && acc) true

/-- The fold `((!__same_as<_Ty, _Us>) && ...)`; the empty fold is `true`. -/
def __none_of (cfg : Config) (T : CppType) (Us : List CppType) : Bool :=
  Us.foldr (fun U acc => (!__same_as cfg T U) && acc) true

/-! ## Destruction and construction -/

/-- The variable template `__destructible_<_Ty>`. The primary template probes
`{ ((_Ty && (*) () noexcept) nullptr)().~_Ty() } noexcept`; the
specialisations for `_Ty&`, `_Ty&&` and `_Ty[_N]` come first. -/
def __destructible_ (W : World) : CppType → Bool
  | .lref _ => true
  | .rref _ => true
  | .array t (_ + 1) => __destructible_ W t
  | T =>
    match forward_expr T with
    | some _ => W.destructor_call T == some true
    | none => false

/-- The concept `destructible<T> = __destructible_<T>`. -/
def destructible (W : World) (T : CppType) : Bool :=
  __destructible_ W T

/-- Compiler builtin `__is_constructible(_Ty, _As...)`: the definition
`_Ty t(std::declval<_As>()...)` is well-formed. -/
def __is_constructible (W : World) (T : CppType) (As : List CppType) : Bool :=
  (W.init T (As.map declval)).isSome

/-- The library trait `std::is_constructible_v<_Ty, _As...>`, specified by the
same variable definition as the builtin. -/
def is_constructible_v (W : World) (T : CppType) (As : List CppType) : Bool :=
  (W.init T (As.map declval)).isSome

/-- The concept `constructible_from<_Ty, _As...>`, in the branch chosen by
`__has_builtin(__is_constructible)`. -/
def constructible_from (W : World) (T : CppType) (As : List CppType) : Bool :=
  if W.cfg.has_builtin_is_constructible then
    destructible W T && __is_constructible W T As
  else
    destructible W T && is_constructible_v W T As

/-- The concept `default_initializable<_Ty>`. -/
def default_initializable (W : World) (T : CppType) : Bool :=
  constructible_from W T [] && W.brace_init T && W.new_expr T

/-- The concept `move_constructible<_Ty> = constructible_from<_Ty, _Ty>`. -/
def move_constructible (W : World) (T : CppType) : Bool :=
  constructible_from W T [T]

/-- The concept `copy_constructible<_Ty>`; a template argument `_Ty const &`
that is not a type makes the conjunct unsatisfied. -/
def copy_constructible (W : World) (T : CppType) : Bool :=
  move_constructible W T &&
    (match add_lref (add_const T) with
     | some R => constructible_from W T [R]
     | none => false)

/-! ## Assignment -/

/-- The variable template `__is_lvalue_reference_<_Ty>`. -/
def __is_lvalue_reference_ : CppType → Bool
  | .lref _ => true
  | _ => false

/-- The requirement of `assignable_from`:
`requires(_LHS __lhs, _RHS&& __rhs) { { __lhs = ((_RHS&&) __rhs) } -> same_as<_LHS>; }`. -/
def assign_requirement (W : World) (LHS RHS : CppType) : Bool :=
  match param_expr LHS, forward_expr RHS with
  | some l, some r =>
    (match W.assign l r with
     | some (R, _) => same_as W.cfg R LHS
     | none => false)
  | _, _ => false

/-- The concept `assignable_from<_LHS, _RHS>`. -/
def assignable_from (W : World) (LHS RHS : CppType) : Bool :=
  __is_lvalue_reference_ LHS && assign_requirement W LHS RHS

/-- A concept applied to the template arguments `L` and `R` when forming the
first may fail: an argument that is not a type leaves it unsatisfied. -/
def assignable_from_formed (W : World) (L : Option CppType) (R : CppType) : Bool :=
  match L with
  | some L => assignable_from W L R
  | none => false

/-! ## The exchange customization point -/

/-- The function an unqualified call `swap(a, b)` resolves to. -/
inductive SwapTarget where
  | bespoke
  | generic
deriving DecidableEq, Repr

/-- A resolved call of `swap`: the selected function and whether the call is
`noexcept`. -/
structure SwapCall where
  target : SwapTarget
  nothrow : Bool
deriving DecidableEq, Repr

/-- The generic `template <class T> void std::swap(T&, T&)` for two lvalues of
type `T`: it takes part in overload resolution when `T` is move constructible
and move assignable, and is `noexcept` when both moves are. -/
def std_swap_generic (W : World) (T : CppType) : Option Bool :=
  match W.init T [⟨.xvalue, T⟩], W.assign ⟨.lvalue, T⟩ ⟨.xvalue, T⟩ with
  | some n1, some (_, n2) => some (n1 && n2)
  | _, _ => none

/-- The overloads of `std::swap` made visible by `using std::swap;`, applied
to two lvalues of type `T`. The array overload
`template <class T, size_t N> void swap(T (&)[N], T (&)[N])` takes part when
the elements are swappable (by an associated overload or by `std::swap`). -/
def std_swap (W : World) : CppType → Option Bool
  | .array e (_ + 1) =>
    match W.adl_swap ⟨.lvalue, e⟩ ⟨.lvalue, e⟩ with
    | some n => some n
    | none => std_swap W e
  | T => std_swap_generic W T

/-- The unqualified call `swap(a, b)` inside namespace `__swap`. An overload
found by argument-dependent lookup and selected is bespoke. Otherwise the
candidates are those of `std::swap`, whose parameters are lvalue references to
non-const `T`: both arguments must be lvalues of one type. -/
def resolve_swap (W : World) (a b : Expr) : Option SwapCall :=
  match W.adl_swap a b with
  | some n => some ⟨.bespoke, n⟩
  | none =>
    if a.cat == .lvalue && b.cat == .lvalue && CppType.same a.ty b.ty then
      match std_swap W a.ty with
      | some n => some ⟨.generic, n⟩
      | none => none
    else none

/-- The concept `__swap::swappable_with<_Ty, _Uy>`:
`requires(_Ty&& __t, _Uy&& __u) { swap((_Ty&&) __t, (_Uy&&) __u); }`. -/
def swappable_with (W : World) (Ty Uy : CppType) : Bool :=
  match forward_expr Ty, forward_expr Uy with
  | some t, some u => (resolve_swap W t u).isSome
  | _, _ => false

/-- Deduction of the template parameter of a forwarding reference `_Ty&&`
from an argument: `U&` for an lvalue of type `U`, `U` for an rvalue. -/
def deduce_forwarding (a : Expr) : CppType :=
  match a.cat with
  | .lvalue => .lref a.ty
  | _ => a.ty

/-- The outcome of a call of the customization point object. -/
inductive CallResult where
  | not_callable
  | ill_formed
  | calls (c : SwapCall)
deriving DecidableEq, Repr

/-- The call `__fn(t, u)` of the generic lambda
`[]<class _Ty, swappable_with<_Ty> _Uy>(_Ty&& __t, _Uy&& __u)`: the type
constraint is `swappable_with<_Uy, _Ty>`, the body and the `noexcept`
specifier are `swap((_Ty&&) __t, (_Uy&&) __u)`. -/
def __fn (W : World) (t u : Expr) : CallResult :=
  if swappable_with W (deduce_forwarding u) (deduce_forwarding t) then
    match forward_expr (deduce_forwarding t), forward_expr (deduce_forwarding u) with
    | some a, some b =>
      (match resolve_swap W a b with
       | some c => .calls c
       | none => .ill_formed)
    | _, _ => .ill_formed
  else .not_callable

/-- The `noexcept` specifier of the call operator of `__fn`:
`noexcept(noexcept(swap((_Ty&&) __t, (_Uy&&) __u)))`, `none` when its operand
is ill-formed. -/
def __fn_noexcept (W : World) (t u : Expr) : Option Bool :=
  match forward_expr (deduce_forwarding t), forward_expr (deduce_forwarding u) with
  | some a, some b =>
    (match resolve_swap W a b with
     | some c => some c.nothrow
     | none => none)
  | _, _ => none

/-- The object `inline constexpr auto const & swap = __swap::__fn;`. -/
def swap (W : World) (t u : Expr) : CallResult :=
  __fn W t u

/-- The concept `swappable<_Ty> = swappable_with<_Ty, _Ty>`. -/
def swappable (W : World) (T : CppType) : Bool :=
  swappable_with W T T

/-! ## Regularity -/

/-- The concept `movable<_Ty>`. -/
def movable (W : World) (T : CppType) : Bool :=
  is_object_v T && move_constructible W T &&
    assignable_from_formed W (add_lref T) T && swappable W T

/-- The concept `copyable<_Ty>`. -/
def copyable (W : World) (T : CppType) : Bool :=
  copy_constructible W T && movable W T &&
    (match add_lref T with
     | some L => assignable_from_formed W (add_lref T) L
     | none => false) &&
    (match add_lref (add_const T) with
     | some R => assignable_from_formed W (add_lref T) R
     | none => false) &&
    assignable_from_formed W (add_lref T) (add_const T)

/-! ## Comparison -/

/-- Whether a function may return the type: not an array, not a function. -/
def returnable : CppType → Bool
  | .array _ _ => false
  | .unbounded _ => false
  | .func _ => false
  | _ => true

/-- The expression `__fun()` for `_From (&__fun)()`. -/
def call_expr : CppType → Expr
  | .lref u => ⟨.lvalue, u⟩
  | .rref (.func i) => ⟨.lvalue, .func i⟩
  | .rref u => ⟨.xvalue, u⟩
  | t => ⟨.prvalue, t⟩

/-- The concept `convertible_to<_From, _To>`: the one of the standard library
(`std::is_convertible_v` and `static_cast<_To>(std::declval<_From>())`) when
its header is there, else the one of this header (`std::is_convertible_v` and
`requires(_From (&__fun)()) { static_cast<_To>(__fun()); }`). -/
def convertible_to (W : World) (From To : CppType) : Bool :=
  if W.cfg.has_std_concepts_header then
    W.is_convertible_v From To && W.static_cast_ok (declval From) To
  else
    W.is_convertible_v From To &&
      (returnable From && W.static_cast_ok (call_expr From) To)

/-- The parameter `const std::remove_reference_t<_Ty>& __t` as an expression. -/
def const_ref_param (T : CppType) : Option Expr :=
  match add_lref (add_const (remove_reference_t T)) with
  | some L => param_expr L
  | none => none

/-- The compound requirement `{ a op b } -> convertible_to<bool>`. -/
def compare_to_bool (W : World) (op : CmpOp) (a b : Expr) : Bool :=
  match W.compare op a b with
  | some R => convertible_to W R bool_
  | none => false

/-- The concept `equality_comparable<_Ty>` written in this header. -/
def equality_comparable_here (W : World) (T : CppType) : Bool :=
  match const_ref_param T with
  | some t => compare_to_bool W .eq t t && compare_to_bool W .ne t t
  | none => false

/-- The concept `equality_comparable<_Ty>`: `std::equality_comparable` when
the standard header is there, else the one written in this header. -/
def equality_comparable (W : World) (T : CppType) : Bool :=
  if W.cfg.has_std_concepts_header then W.std_equality_comparable T
  else equality_comparable_here W T

/-- The concept `__boolean_testable_<_Ty> = convertible_to<_Ty, bool>`. -/
def __boolean_testable_ (W : World) (T : CppType) : Bool :=
  convertible_to W T bool_

/-- The compound requirement `{ a op b } -> __boolean_testable_`. -/
def compare_testable (W : World) (op : CmpOp) (a b : Expr) : Bool :=
  match W.compare op a b with
  | some R => __boolean_testable_ W R
  | none => false

/-- The concept `__partially_ordered_with<T, U>`. -/
def __partially_ordered_with (W : World) (T U : CppType) : Bool :=
  match const_ref_param T, const_ref_param U with
  | some t, some u =>
    compare_testable W .lt t u && compare_testable W .gt t u &&
    compare_testable W .le t u && compare_testable W .ge t u &&
    compare_testable W .lt u t && compare_testable W .gt u t &&
    compare_testable W .le u t && compare_testable W .ge u t
  | _, _ => false

/-- The concept `totally_ordered<_Ty>`. -/
def totally_ordered (W : World) (T : CppType) : Bool :=
  equality_comparable W T && __partially_ordered_with W T T

/-- The concept `semiregular<_Ty>`. -/
def semiregular (W : World) (T : CppType) : Bool :=
  copyable W T && default_initializable W T

/-- The concept `regular<_Ty>`. -/
def regular (W : World) (T : CppType) : Bool :=
  semiregular W T && equality_comparable W T

/-! ## Decay and template shapes -/

/-- The concept `__movable_value<_Ty>`. -/
def __movable_value (W : World) (T : CppType) : Bool :=
  move_constructible W (decay_t T) && constructible_from W (decay_t T) [T]

/-- The variable template `__is_instance_of_<_Ay, _Ty>`: `true` by the
specialisation for `_Ty<_As...>`, else `false`. -/
def __is_instance_of_ (A : CppType) (shape : Nat) : Bool :=
  match A with
  | .inst s _ => s == shape
  | _ => false

/-- The concept `__is_instance_of<_Ay, _Ty>`. -/
def __is_instance_of (A : CppType) (shape : Nat) : Bool :=
  __is_instance_of_ A shape

/-- The concept `__is_not_instance_of<_Ay, _Ty>`. -/
def __is_not_instance_of (A : CppType) (shape : Nat) : Bool :=
  !__is_instance_of A shape

/-- Compiler builtin `__is_nothrow_constructible(_Ty, _As...)`. -/
def __is_nothrow_constructible (W : World) (T : CppType) (As : List CppType) : Bool :=
  W.init T (As.map declval) == some true

/-- The library trait `std::is_nothrow_constructible_v<_Ty, _As...>`. -/
def is_nothrow_constructible_v (W : World) (T : CppType) (As : List CppType) : Bool :=
  W.init T (As.map declval) == some true

/-- The concept `__nothrow_constructible_from<_Ty, _As...>`, in the branch
chosen by `__has_builtin(__is_nothrow_constructible)`. -/
def __nothrow_constructible_from (W : World) (T : CppType) (As : List CppType) : Bool :=
  if W.cfg.has_builtin_is_nothrow_constructible then
    constructible_from W T As && __is_nothrow_constructible W T As
  else
    constructible_from W T As && is_nothrow_constructible_v W T As

/-- The concept `__decay_copyable<_Ty>`. -/
def __decay_copyable (W : World) (T : CppType) : Bool :=
  constructible_from W (decay_t T) [T]

/-- The concept `__nothrow_decay_copyable<_Ty>`. -/
def __nothrow_decay_copyable (W : World) (T : CppType) : Bool :=
  __nothrow_constructible_from W (decay_t T) [T]

/-! ## Multi-dimensional arrays -/

/-- The type `E[N1][N2]...[Nk]`: an array of `N1` arrays of ... of `E`. -/
def array_of (E : CppType) : List Nat → CppType
  | [] => E
  | n :: ns => .array (array_of E ns) n

/-! ## Well-formed types -/

/-- Types that may carry a `const` qualifier of their own. -/
def qualifiable : CppType → Bool
  | .void => true
  | .scalar _ => true
  | .cls _ => true
  | .inst _ _ => true
  | .ptr _ => true
  | _ => false

/-- Types that may be the element of an array. -/
def element_ok : CppType → Bool
  | .unbounded _ => false
  | t => is_object_v t

mutual
/-- The terms of `CppType` that denote a C++ type: no reference to a reference
or to `void`, no doubly or wrongly placed `const`, no empty array and no array
of references, functions or `void`. -/
def CppType.wf : CppType → Bool
  | .void => true
  | .scalar _ => true
  | .cls _ => true
  | .inst _ as => CppType.wfList as
  | .func _ => true
  | .ptr t => CppType.wf t && !is_reference t
  | .const t => CppType.wf t && qualifiable t
  | .lref t => CppType.wf t && !is_reference t && !is_void t
  | .rref t => CppType.wf t && !is_reference t && !is_void t
  | .array t n => CppType.wf t && decide (0 < n) && element_ok t
  | .unbounded t => CppType.wf t && element_ok t
/-- Well-formedness of each type of a template argument list. -/
def CppType.wfList : List CppType → Bool
  | [] => true
  | a :: as => CppType.wf a && CppType.wfList as
end

/-! ## A sample translation unit -/

/-- A class with a deleted copy constructor and copy assignment, and with a
move constructor and a move assignment operator; no `swap` of its own. -/
def MoveOnly : CppType := .cls 0

/-- A copyable, default constructible class with all six comparison operators
and a friend `void swap(Widget&, Widget&) noexcept`. -/
def Widget : CppType := .cls 1

/-- A copyable class whose only comparison operator is `<`. -/
def OnlyLess : CppType := .cls 2

/-- A class with a deleted destructor. -/
def Pinned : CppType := .cls 3

/-- A copyable, default constructible proxy class with all six comparison
operators and a friend `void swap(Proxy, Proxy) noexcept` taking its
arguments by value. -/
def Proxy : CppType := .cls 4

/-- A class whose destructor is declared `noexcept(false)`. -/
def Thrower : CppType := .cls 5

/-- A copyable class whose copy and move operations may throw; no `swap` of
its own. -/
def Heavy : CppType := .cls 6

/-- Destructor calls of the sample unit. -/
def sample_destructor_call (T : CppType) : Option Bool :=
  match remove_const T with
  | .scalar _ => some true
  | .ptr _ => some true
  | .cls 3 => none
  | .cls 5 => some false
  | .cls _ => some true
  | _ => none

/-- Initialisations of the sample unit. -/
def sample_init (T : CppType) (args : List Expr) : Option Bool :=
  match remove_const T, args with
  | .scalar _, [] => some true
  | .scalar i, [e] =>
    (match remove_const e.ty with
     | .scalar j => if i == j then some true else none
     | _ => none)
  | .cls 0, [] => some true
  | .cls 0, [⟨.xvalue, .cls 0⟩] => some true
  | .cls 0, [⟨.prvalue, .cls 0⟩] => some true
  | .cls 1, [] => some true
  | .cls 1, [e] =>
    (match remove_const e.ty with
     | .cls 1 => some true
     | _ => none)
  | .cls 2, [] => some true
  | .cls 2, [e] =>
    (match remove_const e.ty with
     | .cls 2 => some true
     | _ => none)
  | .cls 4, [] => some true
  | .cls 4, [e] =>
    (match remove_const e.ty with
     | .cls 4 => some true
     | _ => none)
  | .cls 5, [] => some true
  | .cls 5, [e] =>
    (match remove_const e.ty with
     | .cls 5 => some true
     | _ => none)
  | .cls 6, [] => some true
  | .cls 6, [e] =>
    (match remove_const e.ty with
     | .cls 6 => some false
     | _ => none)
  | .lref t, [⟨.lvalue, u⟩] => if CppType.same t u then some true else none
  | _, _ => none

/-- Heap allocations `::new _Ty` of the sample unit: as the initialisation
without arguments, except that a `const` scalar cannot be left
uninitialised. -/
def sample_new_expr (T : CppType) : Bool :=
  match T with
  | .const (.scalar _) => false
  | _ => (sample_init T []).isSome

/-- Assignments of the sample unit. -/
def sample_assign (l r : Expr) : Option (CppType × Bool) :=
  match l with
  | ⟨.lvalue, .scalar i⟩ =>
    (match remove_const r.ty with
     | .scalar j => if i == j then some (.lref (.scalar i), true) else none
     | _ => none)
  | ⟨.lvalue, .cls 0⟩ =>
    (match r with
     | ⟨.xvalue, .cls 0⟩ => some (.lref (.cls 0), true)
     | ⟨.prvalue, .cls 0⟩ => some (.lref (.cls 0), true)
     | _ => none)
  | ⟨.lvalue, .cls 1⟩ =>
    (match remove_const r.ty with
     | .cls 1 => some (.lref (.cls 1), true)
     | _ => none)
  | ⟨.lvalue, .cls 2⟩ =>
    (match remove_const r.ty with
     | .cls 2 => some (.lref (.cls 2), true)
     | _ => none)
  | ⟨.lvalue, .cls 4⟩ =>
    (match remove_const r.ty with
     | .cls 4 => some (.lref (.cls 4), true)
     | _ => none)
  | ⟨.lvalue, .cls 6⟩ =>
    (match remove_const r.ty with
     | .cls 6 => some (.lref (.cls 6), false)
     | _ => none)
  | _ => none

/-- Associated `swap` overloads of the sample unit: that of `Widget`, for
two lvalues, and that of `Proxy`, for any two arguments. -/
def sample_adl_swap (a b : Expr) : Option Bool :=
  match a, b with
  | ⟨.lvalue, .cls 1⟩, ⟨.lvalue, .cls 1⟩ => some true
  | ⟨_, .cls 4⟩, ⟨_, .cls 4⟩ => some true
  | _, _ => none

/-- Comparisons of the sample unit. -/
def sample_compare (op : CmpOp) (a b : Expr) : Option CppType :=
  match remove_const a.ty, remove_const b.ty with
  | .scalar i, .scalar j => if i == j then some bool_ else none
  | .cls 1, .cls 1 => some bool_
  | .cls 2, .cls 2 => if op == .lt then some bool_ else none
  | .cls 4, .cls 4 => some bool_
  | _, _ => none

/-- Implicit conversions of the sample unit. -/
def sample_is_convertible_v (From To : CppType) : Bool :=
  match decay_t From, remove_const To with
  | .scalar _, .scalar _ => true
  | A, B => CppType.same A B

/-- Static casts of the sample unit. -/
def sample_static_cast_ok (e : Expr) (To : CppType) : Bool :=
  match remove_const e.ty, remove_const To with
  | .scalar _, .scalar _ => true
  | A, B => CppType.same A B

/-- The sample unit, compiled by GCC without the `<concepts>` header. -/
def sample : World where
  cfg := ⟨.gnuc, false, true, true⟩
  destructor_call := sample_destructor_call
  init := sample_init
  brace_init := fun T => (sample_init T []).isSome
  new_expr := sample_new_expr
  assign := sample_assign
  adl_swap := sample_adl_swap
  compare := sample_compare
  is_convertible_v := sample_is_convertible_v
  static_cast_ok := sample_static_cast_ok
  std_equality_comparable := fun _ => false

/-- A translation unit in which every probed expression is ill-formed. -/
def barren : World where
  cfg := sample.cfg
  destructor_call := fun _ => none
  init := fun _ _ => none
  brace_init := fun _ => false
  new_expr := fun _ => false
  assign := fun _ _ => none
  adl_swap := fun _ _ => none
  compare := fun _ _ _ => none
  is_convertible_v := fun _ _ => false
  static_cast_ok := fun _ _ => false
  std_equality_comparable := fun _ => false

/-- The sample unit after every `operator==` is removed. -/
def sample_without_equality : World :=
  { sample with
    compare := fun op a b =>
      match op with
      | .eq => none
      | _ => sample_compare op a b }

/-- An identity primitive weaker than that of the sample unit: it answers
`false` whenever its first argument is not an lvalue reference. -/
def weak_identity (A B : CppType) : Bool :=
  __is_lvalue_reference_ A && __same_as sample.cfg A B

/-! ## The predicates as functions of the identity primitive -/

/-- The concept `__decays_to` over an arbitrary primitive `p` for `__same_as`. -/
def __decays_to_over (p : CppType → CppType → Bool) (T U : CppType) : Bool :=
  p (decay_t T) U

/-- The concept `__class` over an arbitrary primitive `p` for `__same_as`. -/
def __class_over (p : CppType → CppType → Bool) (C : CppType) : Bool :=
  is_class_type C && !p (add_const C) C

/-- The concept `__one_of` over an arbitrary primitive `p` for `__same_as`. -/
def __one_of_over (p : CppType → CppType → Bool) (T : CppType) (As : List CppType) : Bool :=
  As.foldr (fun A acc => p T A || acc) false

/-- The concept `__all_of` over an arbitrary primitive `p` for `__same_as`. -/
def __all_of_over (p : CppType → CppType → Bool) (T : CppType) (Us : List CppType) : Bool :=
  Us.foldr (fun U acc => p T U && acc) true

/-- The concept `__none_of` over an arbitrary primitive `p` for `__same_as`. -/
def __none_of_over (p : CppType → CppType → Bool) (T : CppType) (Us : List CppType) : Bool :=
  Us.foldr (fun U acc => (!p T U) && acc) true

/-- The requirement of `assignable_from` over an arbitrary primitive `p`. -/
def assign_requirement_over (p : CppType → CppType → Bool) (W : World)
    (LHS RHS : CppType) : Bool :=
  match param_expr LHS, forward_expr RHS with
  | some l, some r =>
    (match W.assign l r with
     | some (R, _) => same_as_over p R LHS
     | none => false)
  | _, _ => false

/-- The concept `assignable_from` over an arbitrary primitive `p`. -/
def assignable_from_over (p : CppType → CppType → Bool) (W : World)
    (LHS RHS : CppType) : Bool :=
  __is_lvalue_reference_ LHS && assign_requirement_over p W LHS RHS

/-- The concept `assignable_from` over `p`, on a left-hand side still to be formed. -/
def assignable_from_formed_over (p : CppType → CppType → Bool) (W : World)
    (L : Option CppType) (R : CppType) : Bool :=
  match L with
  | some L => assignable_from_over p W L R
  | none => false

/-- The concept `movable` over an arbitrary primitive `p`. -/
def movable_over (p : CppType → CppType → Bool) (W : World) (T : CppType) : Bool :=
  is_object_v T && move_constructible W T &&
    assignable_from_formed_over p W (add_lref T) T && swappable W T

/-- The concept `copyable` over an arbitrary primitive `p`. -/
def copyable_over (p : CppType → CppType → Bool) (W : World) (T : CppType) : Bool :=
  copy_constructible W T && movable_over p W T &&
    (match add_lref T with
     | some L => assignable_from_formed_over p W (add_lref T) L
     | none => false) &&
    (match add_lref (add_const T) with
     | some R => assignable_from_formed_over p W (add_lref T) R
     | none => false) &&
    assignable_from_formed_over p W (add_lref T) (add_const T)

/-- The concept `semiregular` over an arbitrary primitive `p`. -/
def semiregular_over (p : CppType → CppType → Bool) (W : World) (T : CppType) : Bool :=
  copyable_over p W T && default_initializable W T

/-- The concept `regular` over an arbitrary primitive `p`. -/
def regular_over (p : CppType → CppType → Bool) (W : World) (T : CppType) : Bool :=
  semiregular_over p W T && equality_comparable W T

/-! ## Weakening of the primitives -/

/-- The primitive `p2` is pointwise weaker than `p1`: some answers changed
from `true` to `false`, none from `false` to `true`. -/
def weaker_primitive (p2 p1 : CppType → CppType → Bool) : Prop :=
  ∀ A B, p2 A B = true → p1 A B = true

/-- The answers of `W2` are pointwise weaker than those of `W1`, under one
build configuration: an expression well-formed (non-throwing) in `W2` is
well-formed (non-throwing), with the same type, in `W1`. -/
structure World.weaker (W2 W1 : World) : Prop where
  cfg : W2.cfg = W1.cfg
  destructor_call : ∀ T, W2.destructor_call T = some true → W1.destructor_call T = some true
  init_ok : ∀ T as, (W2.init T as).isSome = true → (W1.init T as).isSome = true
  init_nothrow : ∀ T as, W2.init T as = some true → W1.init T as = some true
  brace_init : ∀ T, W2.brace_init T = true → W1.brace_init T = true
  new_expr : ∀ T, W2.new_expr T = true → W1.new_expr T = true
  assign : ∀ l r R n, W2.assign l r = some (R, n) → ∃ m, W1.assign l r = some (R, m)
  adl_swap : ∀ a b, (W2.adl_swap a b).isSome = true → (W1.adl_swap a b).isSome = true
  compare : ∀ op a b R, W2.compare op a b = some R → W1.compare op a b = some R
  is_convertible_v : ∀ A B, W2.is_convertible_v A B = true → W1.is_convertible_v A B = true
  static_cast_ok : ∀ e B, W2.static_cast_ok e B = true → W1.static_cast_ok e B = true
  std_equality_comparable :
    ∀ T, W2.std_equality_comparable T = true → W1.std_equality_comparable T = true

/-! # Theorems -/

/-! ## Type identity -/

namespace CppType

mutual
theorem same_refl : ∀ A : CppType, same A A = true
  | .void => by simp [same]
  | .scalar a => by simp [same]
  | .cls a => by simp [same]
  | .inst s as => by simp [same, sameList_refl as]
  | .func a => by simp [same]
  | .ptr a => by simp [same, same_refl a]
  | .const a => by simp [same, same_refl a]
  | .lref a => by simp [same, same_refl a]
  | .rref a => by simp [same, same_refl a]
  | .array a n => by simp [same, same_refl a]
  | .unbounded a => by simp [same, same_refl a]
theorem sameList_refl : ∀ As : List CppType, sameList As As = true
  | [] => by simp [sameList]
  | a :: as => by simp [sameList, same_refl a, sameList_refl as]
end

mutual
theorem eq_of_same : ∀ A B : CppType, same A B = true → A = B
  | .void, B => by cases B <;> simp [same]
  | .scalar a, B => by cases B <;> simp [same]
  | .cls a, B => by cases B <;> simp [same]
  | .inst s as, B => by
      cases B <;> simp [same]
      intro h1 h2
      exact ⟨h1, eq_of_sameList _ _ h2⟩
  | .func a, B => by cases B <;> simp [same]
  | .ptr a, B => by
      cases B <;> simp [same]
      exact eq_of_same a _
  | .const a, B => by
      cases B <;> simp [same]
      exact eq_of_same a _
  | .lref a, B => by
      cases B <;> simp [same]
      exact eq_of_same a _
  | .rref a, B => by
      cases B <;> simp [same]
      exact eq_of_same a _
  | .array a n, B => by
      cases B <;> simp [same]
      intro h1 h2
      exact ⟨eq_of_same a _ h1, h2⟩
  | .unbounded a, B => by
      cases B <;> simp [same]
      exact eq_of_same a _
theorem eq_of_sameList : ∀ As Bs : List CppType, sameList As Bs = true → As = Bs
  | [], Bs => by cases Bs <;> simp [sameList]
  | a :: as, Bs => by
      cases Bs <;> simp [sameList]
      intro h1 h2
      exact ⟨eq_of_same a _ h1, eq_of_sameList as _ h2⟩
end

theorem same_iff (A B : CppType) : same A B = true ↔ A = B :=
  ⟨eq_of_same A B, fun h => h ▸ same_refl A⟩

theorem ne_const (T : CppType) : T ≠ .const T := by
  intro h
  have := congrArg sizeOf h
  simp at this

theorem ne_lref (T : CppType) : T ≠ .lref T := by
  intro h
  have := congrArg sizeOf h
  simp at this

theorem ne_rref (T : CppType) : T ≠ .rref T := by
  intro h
  have := congrArg sizeOf h
  simp at this

end CppType

theorem __same_as_iff (cfg : Config) (A B : CppType) :
    __same_as cfg A B = true ↔ A = B := by
  unfold __same_as
  cases cfg.compiler <;>
    simp [__is_same, __is_same_as, __same_as_specialization, CppType.same_iff]

theorem same_as_iff (cfg : Config) (A B : CppType) :
    same_as cfg A B = true ↔ A = B := by
  unfold same_as same_as_over
  rw [Bool.and_eq_true, __same_as_iff, __same_as_iff]
  exact ⟨fun h => h.1, fun h => ⟨h, h.symm⟩⟩

theorem same_as_eq_false (cfg : Config) {A B : CppType} (h : A ≠ B) :
    same_as cfg A B = false := by
  cases hs : same_as cfg A B
  · rfl
  · exact absurd ((same_as_iff cfg A B).1 hs) h

/-- Claim C1. `same_as(A, B)` holds exactly when `A` and `B` are one type, in
each of the three compiler branches: it holds of `(T, T)`, fails in both
orders on distinct types, and neither a `const` qualifier nor an lvalue or
rvalue reference put on `T` gives a type that is the same as `T`. -/
theorem C1_same_as_exact (cfg : Config) (A B : CppType) :
    (same_as cfg A B = true ↔ A = B) ∧
    same_as cfg A A = true ∧
    (A ≠ B → same_as cfg A B = false ∧ same_as cfg B A = false) ∧
    same_as cfg A (.const A) = false ∧
    same_as cfg A (.lref A) = false ∧
    same_as cfg A (.rref A) = false :=
  ⟨same_as_iff cfg A B,
   (same_as_iff cfg A A).2 rfl,
   fun h => ⟨same_as_eq_false cfg h, same_as_eq_false cfg (Ne.symm h)⟩,
   same_as_eq_false cfg (CppType.ne_const A),
   same_as_eq_false cfg (CppType.ne_lref A),
   same_as_eq_false cfg (CppType.ne_rref A)⟩

/-- Claim C1 at `int` and `const int` under the specialisation branch. -/
theorem C1_same_as_exact_witness :
    int_ ≠ .const int_ ∧
    same_as ⟨.other, false, true, true⟩ int_ (.const int_) = false ∧
    same_as ⟨.other, false, true, true⟩ (.const int_) int_ = false :=
  ⟨CppType.ne_const int_,
   (C1_same_as_exact ⟨.other, false, true, true⟩ int_ (.const int_)).2.2.1
     (CppType.ne_const int_)⟩

/-! ## Membership combinators -/

theorem __one_of_iff (cfg : Config) (T : CppType) :
    ∀ Cs : List CppType, __one_of cfg T Cs = true ↔ ∃ C ∈ Cs, T = C
  | [] => by simp [__one_of]
  | C :: Cs => by
      have ih := __one_of_iff cfg T Cs
      simp only [__one_of, List.foldr_cons, Bool.or_eq_true] at ih ⊢
      rw [ih, __same_as_iff]
      simp

theorem __all_of_iff (cfg : Config) (T : CppType) :
    ∀ Cs : List CppType, __all_of cfg T Cs = true ↔ ∀ C ∈ Cs, T = C
  | [] => by simp [__all_of]
  | C :: Cs => by
      have ih := __all_of_iff cfg T Cs
      simp only [__all_of, List.foldr_cons, Bool.and_eq_true] at ih ⊢
      rw [ih, __same_as_iff]
      simp

/-- Claim C10. `__one_of<T, Cs...>` holds exactly when `same_as<T, C>` holds
for some `C` of the list, `__all_of<T, Cs...>` exactly when it holds for every
`C` of the list; and the four instances over `int`, `float` and `double`. -/
theorem C10_one_of_all_of (cfg : Config) (T : CppType) (Cs : List CppType) :
    (__one_of cfg T Cs = true ↔ ∃ C ∈ Cs, same_as cfg T C = true) ∧
    (__all_of cfg T Cs = true ↔ ∀ C ∈ Cs, same_as cfg T C = true) ∧
    __one_of cfg int_ [float_, double_] = false ∧
    __one_of cfg int_ [int_, double_] = true ∧
    __all_of cfg int_ [int_, int_] = true ∧
    __all_of cfg int_ [int_, double_] = false := by
  refine ⟨?_, ?_, ?_, ?_, ?_, ?_⟩
  · simp only [__one_of_iff, same_as_iff]
  · simp only [__all_of_iff, same_as_iff]
  · rw [Bool.eq_false_iff, Ne, __one_of_iff]
    simp [int_, float_, double_]
  · rw [__one_of_iff]
    simp
  · rw [__all_of_iff]
    simp
  · rw [Bool.eq_false_iff, Ne, __all_of_iff]
    simp [int_, double_]

/-! ## Destruction -/

theorem add_lref_is_lref {R L : CppType} (h : add_lref R = some L) :
    ∃ U, L = .lref U := by
  cases R <;> simp only [add_lref] at h
  all_goals first
    | exact ⟨_, (Option.some.inj h).symm⟩
    | (split at h
       · cases h
       · exact ⟨_, (Option.some.inj h).symm⟩)

theorem add_rref_is_reference {R L : CppType} (h : add_rref R = some L) :
    is_reference L = true := by
  cases R <;> simp only [add_rref] at h
  all_goals first
    | (cases h; rfl)
    | (split at h
       · cases h
       · cases h; rfl)

theorem destructible_of_is_reference (W : World) {L : CppType}
    (h : is_reference L = true) : destructible W L = true := by
  cases L <;> simp [is_reference] at h <;> simp [destructible, __destructible_]

/-- Claim C6. `destructible<R&>` and `destructible<R&&>` hold for every `R`,
both for the reference types as written and for the types `R&` and `R&&`
formed with reference collapsing, whatever `destructible<R>` is. -/
theorem C6_reference_destructible (W : World) (R : CppType) :
    destructible W (.lref R) = true ∧
    destructible W (.rref R) = true ∧
    (∀ L, add_lref R = some L → destructible W L = true) ∧
    (∀ L, add_rref R = some L → destructible W L = true) := by
  refine ⟨by simp [destructible, __destructible_],
          by simp [destructible, __destructible_], ?_, ?_⟩
  · intro L h
    obtain ⟨U, rfl⟩ := add_lref_is_lref h
    simp [destructible, __destructible_]
  · intro L h
    exact destructible_of_is_reference W (add_rref_is_reference h)

/-- Claim C6 at a class with a deleted destructor: the class is not
destructible, references to it are. -/
theorem C6_reference_destructible_witness :
    destructible sample Pinned = false ∧
    add_lref Pinned = some (.lref Pinned) ∧
    destructible sample (.lref Pinned) = true ∧
    add_rref Pinned = some (.rref Pinned) ∧
    destructible sample (.rref Pinned) = true :=
  ⟨by decide, rfl,
   (C6_reference_destructible sample Pinned).2.2.1 (.lref Pinned) rfl,
   rfl,
   (C6_reference_destructible sample Pinned).2.2.2 (.rref Pinned) rfl⟩

theorem destructible_array (W : World) (E : CppType) (N : Nat) (hN : 1 ≤ N) :
    destructible W (.array E N) = destructible W E := by
  obtain ⟨n, rfl⟩ : ∃ n, N = n + 1 := ⟨N - 1, by omega⟩
  simp [destructible, __destructible_]

theorem destructible_array_of (W : World) (E : CppType) :
    ∀ dims : List Nat, (∀ n ∈ dims, 1 ≤ n) →
      destructible W (array_of E dims) = destructible W E
  | [], _ => rfl
  | n :: ns, h => by
      have h1 : 1 ≤ n := h n (List.mem_cons_self n ns)
      have h2 : ∀ m ∈ ns, 1 ≤ m := fun m hm => h m (List.mem_cons_of_mem n hm)
      simp only [array_of]
      rw [destructible_array W _ n h1]
      exact destructible_array_of W E ns h2

/-- Claim C7. For a bound `N >= 1`, `destructible<E[N]>` equals
`destructible<E>`, and so does `destructible<E[N1]...[Nk]>` for bounds that
are all at least one; `__destructible_` is a total function, its recursion is
on the nesting of the array type. -/
theorem C7_array_destructible (W : World) (E : CppType) (N : Nat) (hN : 1 ≤ N)
    (dims : List Nat) (hdims : ∀ n ∈ dims, 1 ≤ n) :
    destructible W (.array E N) = destructible W E ∧
    destructible W (array_of E dims) = destructible W E :=
  ⟨destructible_array W E N hN, destructible_array_of W E dims hdims⟩

/-- Claim C7 at `int[3]`, `int[2][3]`, `Pinned[3]` and `Pinned[2][3]`. -/
theorem C7_array_destructible_witness :
    (destructible sample (.array int_ 3) = destructible sample int_ ∧
     destructible sample (array_of int_ [2, 3]) = destructible sample int_) ∧
    (destructible sample (.array Pinned 3) = destructible sample Pinned ∧
     destructible sample (array_of Pinned [2, 3]) = destructible sample Pinned) ∧
    destructible sample int_ = true ∧ destructible sample Pinned = false :=
  ⟨C7_array_destructible sample int_ 3 (by decide) [2, 3] (by decide),
   C7_array_destructible sample Pinned 3 (by decide) [2, 3] (by decide),
   by decide, by decide⟩

/-! ## Assignment -/

theorem is_lvalue_reference_iff (T : CppType) :
    __is_lvalue_reference_ T = true ↔ ∃ U, T = .lref U := by
  cases T <;> simp [__is_lvalue_reference_]

/-- Claim C8. When `LHS` is not an lvalue reference (in particular when it is
an rvalue reference), `assignable_from<LHS, RHS>` is false; and when the
concept holds, `LHS` is `U&` for some `U`, the assignment of the forwarded
right-hand side to an lvalue of type `U` is well-formed, and the type of the
assignment expression is `LHS` itself. -/
theorem C8_assignable_from_lvalue_reference (W : World) (LHS RHS : CppType) :
    ((∀ U, LHS ≠ .lref U) → assignable_from W LHS RHS = false) ∧
    assignable_from W (.rref LHS) RHS = false ∧
    (assignable_from W LHS RHS = true →
      ∃ U, LHS = .lref U ∧
        ∃ r n, forward_expr RHS = some r ∧
          W.assign ⟨.lvalue, U⟩ r = some (LHS, n)) := by
  refine ⟨?_, by simp [assignable_from, __is_lvalue_reference_], ?_⟩
  · intro h
    have : __is_lvalue_reference_ LHS = false := by
      cases hl : __is_lvalue_reference_ LHS
      · rfl
      · obtain ⟨U, hU⟩ := (is_lvalue_reference_iff LHS).1 hl
        exact absurd hU (h U)
    simp [assignable_from, this]
  · intro h
    simp only [assignable_from, Bool.and_eq_true] at h
    obtain ⟨U, rfl⟩ := (is_lvalue_reference_iff LHS).1 h.1
    refine ⟨U, rfl, ?_⟩
    have h2 := h.2
    simp only [assign_requirement, param_expr] at h2
    cases hr : forward_expr RHS with
    | none => simp [hr] at h2
    | some r =>
      simp only [hr] at h2
      cases ha : W.assign ⟨.lvalue, U⟩ r with
      | none => simp [ha] at h2
      | some p =>
        obtain ⟨R, n⟩ := p
        simp only [ha] at h2
        have hR : R = .lref U := (same_as_iff W.cfg R (.lref U)).1 h2
        subst hR
        exact ⟨r, n, rfl, ha⟩

/-- Claim C8 at `int`: `int = int` is well-formed and has type `int&`, the
concept fails for the left-hand sides `int` and `int&&` and holds for `int&`. -/
theorem C8_assignable_from_lvalue_reference_witness :
    sample.assign ⟨.lvalue, int_⟩ ⟨.xvalue, int_⟩ = some (.lref int_, true) ∧
    assignable_from sample int_ int_ = false ∧
    assignable_from sample (.rref int_) int_ = false ∧
    assignable_from sample (.lref int_) int_ = true ∧
    (∃ U, CppType.lref int_ = .lref U ∧
        ∃ r n, forward_expr int_ = some r ∧
          sample.assign ⟨.lvalue, U⟩ r = some (.lref int_, n)) :=
  ⟨rfl,
   (C8_assignable_from_lvalue_reference sample int_ int_).1
     (by intro U h; simp [int_] at h),
   (C8_assignable_from_lvalue_reference sample int_ int_).2.1,
   by decide,
   (C8_assignable_from_lvalue_reference sample (.lref int_) int_).2.2 (by decide)⟩

/-! ## The exchange customization point -/

theorem forward_expr_object {T : CppType} (h : is_object_v T = true) :
    forward_expr T = some ⟨.xvalue, T⟩ := by
  cases T <;> simp [is_object_v, is_function, is_reference, is_void] at h <;>
    simp [forward_expr, add_rref, declval, is_void]
  rename_i t
  cases t <;> simp at h <;> simp

theorem resolve_swap_rvalues (W : World) (T : CppType) :
    resolve_swap W ⟨.xvalue, T⟩ ⟨.xvalue, T⟩ =
      (W.adl_swap ⟨.xvalue, T⟩ ⟨.xvalue, T⟩).map (fun n => ⟨.bespoke, n⟩) := by
  unfold resolve_swap
  cases W.adl_swap ⟨.xvalue, T⟩ ⟨.xvalue, T⟩ <;> simp

/-- For an object type, `swappable<_Ty>` probes `swap` on two xvalues, which
no overload of `std::swap` accepts: it holds exactly when an associated
overload accepts two rvalues. -/
theorem swappable_object (W : World) {T : CppType} (h : is_object_v T = true) :
    swappable W T = (W.adl_swap ⟨.xvalue, T⟩ ⟨.xvalue, T⟩).isSome := by
  unfold swappable swappable_with
  rw [forward_expr_object h]
  simp only [resolve_swap_rvalues]
  cases W.adl_swap ⟨.xvalue, T⟩ ⟨.xvalue, T⟩ <;> rfl

/-- Claim C2, evaluated at the move-only class of the sample unit: the class
is an object type, move constructible and move assignable, copy construction
is unavailable and no associated `swap` exists, yet `swappable_with<T, T>`,
`swappable<T>` and `movable<T>` are false, because the probe passes two
xvalues to `std::swap(T&, T&)`. On two lvalues the same generic `swap` is
found: `swappable_with<T&, T&>` holds and the customization point calls it. -/
theorem C2_move_only_not_swappable :
    is_object_v MoveOnly = true ∧
    move_constructible sample MoveOnly = true ∧
    assignable_from sample (.lref MoveOnly) MoveOnly = true ∧
    copy_constructible sample MoveOnly = false ∧
    (∀ c d : Cat, sample.adl_swap ⟨c, MoveOnly⟩ ⟨d, MoveOnly⟩ = none) ∧
    swappable_with sample MoveOnly MoveOnly = false ∧
    swappable sample MoveOnly = false ∧
    movable sample MoveOnly = false ∧
    swappable_with sample (.lref MoveOnly) (.lref MoveOnly) = true ∧
    swap sample ⟨.lvalue, MoveOnly⟩ ⟨.lvalue, MoveOnly⟩ = .calls ⟨.generic, true⟩ := by
  refine ⟨by decide, by decide, by decide, by decide, ?_, by decide, by decide,
    by decide, by decide, by decide⟩
  intro c d
  cases c <;> cases d <;> rfl

theorem destructible_of_constructible_from (W : World) (T : CppType)
    (As : List CppType) (h : constructible_from W T As = true) :
    destructible W T = true := by
  unfold constructible_from at h
  split at h <;> simp only [Bool.and_eq_true] at h <;> exact h.1

theorem copy_constructible_of_copyable (W : World) (T : CppType)
    (h : copyable W T = true) : copy_constructible W T = true := by
  simp only [copyable, Bool.and_eq_true] at h
  exact h.1.1.1.1

theorem movable_of_copyable (W : World) (T : CppType)
    (h : copyable W T = true) : movable W T = true := by
  simp only [copyable, Bool.and_eq_true] at h
  exact h.1.1.1.2

theorem copyable_of_semiregular (W : World) (T : CppType)
    (h : semiregular W T = true) : copyable W T = true := by
  simp only [semiregular, Bool.and_eq_true] at h
  exact h.1

theorem semiregular_of_regular (W : World) (T : CppType)
    (h : regular W T = true) : semiregular W T = true := by
  simp only [regular, Bool.and_eq_true] at h
  exact h.1

theorem assignable_from_formed_iff (W : World) (L : Option CppType) (R : CppType) :
    assignable_from_formed W L R = true ↔
      ∃ L1, L = some L1 ∧ assignable_from W L1 R = true := by
  cases L <;> simp [assignable_from_formed]

theorem eq_false_of_imp_false {a b : Bool} (hab : a = true → b = true)
    (hb : b = false) : a = false := by
  cases a
  · rfl
  · rw [hab rfl] at hb
    exact hb

/-- Claim C4. When `T` is not constructible from `const T&`,
`copy_constructible<T>`, `copyable<T>`, `semiregular<T>` and `regular<T>` are
all false, whatever the other answers of the translation unit are. -/
theorem C4_no_copy_not_copyable (W : World) (T : CppType)
    (h : ∀ R, add_lref (add_const T) = some R → constructible_from W T [R] = false) :
    copy_constructible W T = false ∧
    copyable W T = false ∧
    semiregular W T = false ∧
    regular W T = false := by
  have h1 : copy_constructible W T = false := by
    unfold copy_constructible
    cases hR : add_lref (add_const T) with
    | none => simp
    | some R => simp [h R hR]
  have h2 := eq_false_of_imp_false (copy_constructible_of_copyable W T) h1
  have h3 := eq_false_of_imp_false (copyable_of_semiregular W T) h2
  have h4 := eq_false_of_imp_false (semiregular_of_regular W T) h3
  exact ⟨h1, h2, h3, h4⟩

/-- Claim C4 at the move-only class of the sample unit, which is move
constructible, move assignable and default initializable. -/
theorem C4_no_copy_not_copyable_witness :
    move_constructible sample MoveOnly = true ∧
    default_initializable sample MoveOnly = true ∧
    add_lref (add_const MoveOnly) = some (.lref (.const MoveOnly)) ∧
    constructible_from sample MoveOnly [.lref (.const MoveOnly)] = false ∧
    (copy_constructible sample MoveOnly = false ∧
     copyable sample MoveOnly = false ∧
     semiregular sample MoveOnly = false ∧
     regular sample MoveOnly = false) :=
  ⟨by decide, by decide, rfl, by decide,
   C4_no_copy_not_copyable sample MoveOnly (by
     intro R hR
     have hR2 : some (CppType.lref (.const MoveOnly)) = some R := hR
     cases hR2
     decide)⟩

/-- Claim C5. `regular` implies `semiregular`, which implies `copyable`, which
implies `movable`, which implies `swappable`, `move_constructible`,
`assignable_from<T&, T>` and that `T` is an object type; and
`move_constructible<T>`, like every `constructible_from<T, Args...>`, implies
`destructible<T>`. -/
theorem C5_regularity_chain (W : World) (T : CppType) :
    (regular W T = true → semiregular W T = true) ∧
    (semiregular W T = true → copyable W T = true) ∧
    (copyable W T = true → movable W T = true) ∧
    (movable W T = true →
      swappable W T = true ∧ move_constructible W T = true ∧
      (∃ L, add_lref T = some L ∧ assignable_from W L T = true) ∧
      is_object_v T = true) ∧
    (move_constructible W T = true → destructible W T = true) ∧
    (∀ As, constructible_from W T As = true → destructible W T = true) := by
  refine ⟨semiregular_of_regular W T, copyable_of_semiregular W T,
    movable_of_copyable W T, ?_, ?_, destructible_of_constructible_from W T⟩
  · intro h
    simp only [movable, Bool.and_eq_true] at h
    exact ⟨h.2, h.1.1.2, (assignable_from_formed_iff W _ T).1 h.1.2, h.1.1.1⟩
  · intro h
    exact destructible_of_constructible_from W T [T] h

/-- Claim C5 at the proxy class of the sample unit, which is regular. -/
theorem C5_regularity_chain_witness :
    regular sample Proxy = true ∧
    semiregular sample Proxy = true ∧
    copyable sample Proxy = true ∧
    movable sample Proxy = true ∧
    (swappable sample Proxy = true ∧ move_constructible sample Proxy = true ∧
      (∃ L, add_lref Proxy = some L ∧ assignable_from sample L Proxy = true) ∧
      is_object_v Proxy = true) ∧
    destructible sample Proxy = true :=
  ⟨by decide,
   (C5_regularity_chain sample Proxy).1 (by decide),
   (C5_regularity_chain sample Proxy).2.1 (by decide),
   (C5_regularity_chain sample Proxy).2.2.1 (by decide),
   (C5_regularity_chain sample Proxy).2.2.2.1 (by decide),
   (C5_regularity_chain sample Proxy).2.2.2.2.1 (by decide)⟩

/-! ## Ordering -/

theorem compare_testable_iff (W : World) (op : CmpOp) (a b : Expr) :
    compare_testable W op a b = true ↔
      ∃ R, W.compare op a b = some R ∧ convertible_to W R bool_ = true := by
  unfold compare_testable __boolean_testable_
  cases W.compare op a b <;> simp

theorem partially_ordered_with_self_iff (W : World) (T : CppType) :
    __partially_ordered_with W T T = true ↔
      ∃ t, const_ref_param T = some t ∧
        ∀ op ∈ [CmpOp.lt, CmpOp.gt, CmpOp.le, CmpOp.ge],
          ∃ R, W.compare op t t = some R ∧ convertible_to W R bool_ = true := by
  unfold __partially_ordered_with
  cases const_ref_param T with
  | none => simp
  | some t =>
    simp only [Bool.and_eq_true, compare_testable_iff, List.mem_cons,
      List.mem_singleton, Option.some.injEq, exists_eq_left', forall_eq_or_imp,
      forall_eq]
    constructor
    · rintro ⟨⟨⟨⟨⟨⟨⟨h1, h2⟩, h3⟩, h4⟩, _⟩, _⟩, _⟩, _⟩
      exact ⟨h1, h2, h3, h4, by simp⟩
    · rintro ⟨h1, h2, h3, h4, _⟩
      exact ⟨⟨⟨⟨⟨⟨⟨h1, h2⟩, h3⟩, h4⟩, h1⟩, h2⟩, h3⟩, h4⟩

/-- Claim C9. `totally_ordered<T>` holds exactly when `equality_comparable<T>`
holds and each of `<`, `>`, `<=`, `>=` on two const lvalues of `T` is
well-formed with a result convertible to `bool`; so it fails as soon as one of
the four is missing, as for a type that has `<` alone. -/
theorem C9_totally_ordered_iff (W : World) (T : CppType) :
    (totally_ordered W T = true ↔
      equality_comparable W T = true ∧
      ∃ t, const_ref_param T = some t ∧
        ∀ op ∈ [CmpOp.lt, CmpOp.gt, CmpOp.le, CmpOp.ge],
          ∃ R, W.compare op t t = some R ∧ convertible_to W R bool_ = true) ∧
    (∀ t op, const_ref_param T = some t →
      op ∈ [CmpOp.lt, CmpOp.gt, CmpOp.le, CmpOp.ge] →
      W.compare op t t = none → totally_ordered W T = false) := by
  have hiff : totally_ordered W T = true ↔
      equality_comparable W T = true ∧
      ∃ t, const_ref_param T = some t ∧
        ∀ op ∈ [CmpOp.lt, CmpOp.gt, CmpOp.le, CmpOp.ge],
          ∃ R, W.compare op t t = some R ∧ convertible_to W R bool_ = true := by
    unfold totally_ordered
    rw [Bool.and_eq_true, partially_ordered_with_self_iff]
  refine ⟨hiff, ?_⟩
  intro t op ht hop hnone
  cases hto : totally_ordered W T with
  | false => rfl
  | true =>
    obtain ⟨_, t1, ht1, hall⟩ := hiff.1 hto
    rw [ht] at ht1
    cases ht1
    obtain ⟨R, hR, _⟩ := hall op hop
    rw [hnone] at hR
    cases hR

/-- Claim C9 in the sample unit: `OnlyLess` has `<` and no `>`, and is not
totally ordered; `Widget` has `==`, `!=` and the four relational operators,
all returning `bool`, and is totally ordered. -/
theorem C9_totally_ordered_iff_witness :
    const_ref_param OnlyLess = some ⟨.lvalue, .const OnlyLess⟩ ∧
    sample.compare .lt ⟨.lvalue, .const OnlyLess⟩ ⟨.lvalue, .const OnlyLess⟩ = some bool_ ∧
    sample.compare .gt ⟨.lvalue, .const OnlyLess⟩ ⟨.lvalue, .const OnlyLess⟩ = none ∧
    totally_ordered sample OnlyLess = false ∧
    totally_ordered sample Widget = true ∧
    (equality_comparable sample Widget = true ∧
      ∃ t, const_ref_param Widget = some t ∧
        ∀ op ∈ [CmpOp.lt, CmpOp.gt, CmpOp.le, CmpOp.ge],
          ∃ R, sample.compare op t t = some R ∧ convertible_to sample R bool_ = true) :=
  ⟨rfl, rfl, rfl,
   (C9_totally_ordered_iff sample OnlyLess).2 ⟨.lvalue, .const OnlyLess⟩ .gt rfl
     (by decide) rfl,
   by decide,
   (C9_totally_ordered_iff sample Widget).1.1 (by decide)⟩

/-! ## Template shapes -/

/-- Claim C11. `__is_instance_of<A, S>` holds exactly when `A` is `S<As...>`
for some argument list; it is false for `S2<As...>` with another shape `S2`,
for every type that is no class template specialisation, and for a `const`
type or a reference, whatever it qualifies or refers to;
`__is_not_instance_of` is its negation. -/
theorem C11_is_instance_of (A : CppType) (S : Nat) :
    (__is_instance_of A S = true ↔ ∃ As, A = .inst S As) ∧
    (∀ S2 As, S2 ≠ S → __is_instance_of (.inst S2 As) S = false) ∧
    ((∀ S2 As, A ≠ .inst S2 As) → __is_instance_of A S = false) ∧
    (__is_instance_of (.const A) S = false ∧
     __is_instance_of (.lref A) S = false ∧
     __is_instance_of (.rref A) S = false) ∧
    __is_not_instance_of A S = !__is_instance_of A S := by
  refine ⟨?_, ?_, ?_, ⟨rfl, rfl, rfl⟩, rfl⟩
  · cases A <;> simp [__is_instance_of, __is_instance_of_]
  · intro S2 As h
    simp [__is_instance_of, __is_instance_of_, h]
  · intro h
    cases A <;> simp [__is_instance_of, __is_instance_of_]
    rename_i s as
    exact absurd rfl (h s as)

/-- Claim C11 on two shapes, numbered 0 and 1, applied to `int`. -/
theorem C11_is_instance_of_witness :
    __is_instance_of (.inst 0 [int_]) 0 = true ∧
    __is_instance_of (.inst 1 [int_]) 0 = false ∧
    __is_instance_of int_ 0 = false ∧
    __is_instance_of (.const (.inst 0 [int_])) 0 = false ∧
    __is_instance_of (.lref (.inst 0 [int_])) 0 = false ∧
    __is_not_instance_of (.inst 1 [int_]) 0 = true :=
  ⟨(C11_is_instance_of (.inst 0 [int_]) 0).1.2 ⟨[int_], rfl⟩,
   (C11_is_instance_of int_ 0).2.1 1 [int_] (by decide),
   (C11_is_instance_of int_ 0).2.2.1 (by intro S2 As h; simp [int_] at h),
   (C11_is_instance_of (.inst 0 [int_]) 0).2.2.2.1.1,
   (C11_is_instance_of (.inst 0 [int_]) 0).2.2.2.1.2.1,
   by decide⟩

/-! ## Default initialisation and decay copies -/

/-- Claim C15. `default_initializable<T>` holds exactly when
`constructible_from<T>` holds and both `T{}` and `::new T` are well-formed; a
type for which `constructible_from<T>` holds and one of the two forms is
ill-formed is not default initializable. -/
theorem C15_default_initializable (W : World) (T : CppType) :
    (default_initializable W T = true ↔
      constructible_from W T [] = true ∧ W.brace_init T = true ∧ W.new_expr T = true) ∧
    (constructible_from W T [] = true →
      (W.brace_init T = false ∨ W.new_expr T = false) →
      default_initializable W T = false) := by
  constructor
  · simp only [default_initializable, Bool.and_eq_true, and_assoc]
  · intro _ h
    rcases h with h | h <;> simp [default_initializable, h]

/-- Claim C15 at `const int`: it is constructible without arguments and
`const int{}` is well-formed, `::new const int` is not. -/
theorem C15_default_initializable_witness :
    constructible_from sample (.const int_) [] = true ∧
    sample.brace_init (.const int_) = true ∧
    sample.new_expr (.const int_) = false ∧
    default_initializable sample (.const int_) = false ∧
    default_initializable sample int_ = true :=
  ⟨by decide, by decide, by decide,
   (C15_default_initializable sample (.const int_)).2 (by decide) (Or.inr (by decide)),
   (C15_default_initializable sample int_).1.2 ⟨by decide, by decide, by decide⟩⟩

theorem nothrow_constructible_from_iff (W : World) (T : CppType) (As : List CppType) :
    __nothrow_constructible_from W T As = true ↔
      constructible_from W T As = true ∧ W.init T (As.map declval) = some true := by
  unfold __nothrow_constructible_from
  split <;>
    simp [__is_nothrow_constructible, is_nothrow_constructible_v]

/-- Claim C16. `__decay_copyable<T>` holds exactly when `decay_t<T>` is
constructible from an expression `std::declval<T>()`, and
`__nothrow_decay_copyable<T>` exactly when in addition that initialisation is
known not to throw; the second implies the first, both imply
`destructible<decay_t<T>>`; and for a type that refers to no array and no
function, `decay_t<T>` is `T` without its reference and its qualifier. -/
theorem C16_decay_copyable (W : World) (T : CppType) :
    (__decay_copyable W T = true ↔ constructible_from W (decay_t T) [T] = true) ∧
    (__nothrow_decay_copyable W T = true ↔
      constructible_from W (decay_t T) [T] = true ∧
      W.init (decay_t T) [declval T] = some true) ∧
    (__nothrow_decay_copyable W T = true → __decay_copyable W T = true) ∧
    (__decay_copyable W T = true → destructible W (decay_t T) = true) ∧
    (__nothrow_decay_copyable W T = true → destructible W (decay_t T) = true) ∧
    (is_array (remove_reference_t T) = false →
      is_function (remove_reference_t T) = false →
      decay_t T = remove_const (remove_reference_t T)) := by
  have h2 : __nothrow_decay_copyable W T = true ↔
      constructible_from W (decay_t T) [T] = true ∧
      W.init (decay_t T) [declval T] = some true := by
    unfold __nothrow_decay_copyable
    rw [nothrow_constructible_from_iff]
    simp
  refine ⟨Iff.rfl, h2, fun h => (h2.1 h).1,
    fun h => destructible_of_constructible_from W _ _ h,
    fun h => destructible_of_constructible_from W _ _ (h2.1 h).1, ?_⟩
  intro ha hf
  unfold decay_t
  cases h : remove_reference_t T <;> simp [h, is_array, is_function] at ha hf ⊢

/-- Claim C16 in the sample unit at `const int&`, which decays to `int`, and
at `MoveOnly&`, from which no `MoveOnly` can be made. -/
theorem C16_decay_copyable_witness :
    decay_t (.lref (.const int_)) = int_ ∧
    __nothrow_decay_copyable sample (.lref (.const int_)) = true ∧
    __decay_copyable sample (.lref (.const int_)) = true ∧
    destructible sample (decay_t (.lref (.const int_))) = true ∧
    __decay_copyable sample (.lref MoveOnly) = false ∧
    __decay_copyable sample MoveOnly = true :=
  ⟨(C16_decay_copyable sample (.lref (.const int_))).2.2.2.2.2 rfl rfl,
   by decide,
   (C16_decay_copyable sample (.lref (.const int_))).2.2.1 (by decide),
   (C16_decay_copyable sample (.lref (.const int_))).2.2.2.1 (by decide),
   by decide, by decide⟩

/-! ## Symmetry of `same_as` -/

theorem __same_as_comm (cfg : Config) (A B : CppType) :
    __same_as cfg A B = __same_as cfg B A := by
  rw [Bool.eq_iff_iff, __same_as_iff, __same_as_iff]
  exact eq_comm

/-- Claim C17. Over an arbitrary primitive `p`, the concept
`p<A, B> && p<B, A>` takes the same value on `(A, B)` and `(B, A)`, and it is
`p<A, B>` when `p` is symmetric; `same_as` is that concept over `__same_as`. -/
theorem C17_same_as_symmetric (p : CppType → CppType → Bool) (A B : CppType) :
    same_as_over p A B = same_as_over p B A ∧
    ((∀ X Y, p X Y = p Y X) → same_as_over p A B = p A B) ∧
    (∀ cfg, same_as cfg A B = same_as_over (__same_as cfg) A B) := by
  refine ⟨Bool.and_comm _ _, ?_, fun _ => rfl⟩
  intro h
  unfold same_as_over
  rw [h B A, Bool.and_self]

/-- Claim C17 at a primitive that only looks at its first argument, and at
the symmetric primitive of the header. -/
theorem C17_same_as_symmetric_witness :
    __is_lvalue_reference_ (.lref int_) = true ∧
    __is_lvalue_reference_ int_ = false ∧
    same_as_over (fun X _ => __is_lvalue_reference_ X) (.lref int_) int_ =
      same_as_over (fun X _ => __is_lvalue_reference_ X) int_ (.lref int_) ∧
    same_as_over (__same_as sample.cfg) int_ int_ = __same_as sample.cfg int_ int_ :=
  ⟨rfl, rfl,
   (C17_same_as_symmetric (fun X _ => __is_lvalue_reference_ X) (.lref int_) int_).1,
   (C17_same_as_symmetric (__same_as sample.cfg) int_ int_).2.1
     (__same_as_comm sample.cfg)⟩

/-! ## Destructors of object types -/

theorem destructible_object (W : World) {T : CppType}
    (hobj : is_object_v T = true) (harr : is_array T = false) :
    destructible W T = (W.destructor_call T == some true) := by
  have hf := forward_expr_object hobj
  cases T <;> simp [is_array] at harr <;>
    simp [is_object_v, is_reference] at hobj <;>
    simp [destructible, __destructible_, hf]

theorem constructible_from_eq_false (W : World) {T : CppType} (As : List CppType)
    (h : destructible W T = false) : constructible_from W T As = false := by
  unfold constructible_from
  split <;> simp [h]

/-- Claim C18. For an object type `T` that is no array, `destructible<T>`
holds exactly when the destructor call is well-formed and `noexcept`; when it
is not, `constructible_from<T, Args...>` fails for every argument list, and so
do `move_constructible`, `copy_constructible` and `default_initializable`. -/
theorem C18_destructible_object (W : World) (T : CppType)
    (hobj : is_object_v T = true) (harr : is_array T = false) :
    (destructible W T = true ↔ W.destructor_call T = some true) ∧
    (W.destructor_call T ≠ some true →
      destructible W T = false ∧
      (∀ As, constructible_from W T As = false) ∧
      move_constructible W T = false ∧
      copy_constructible W T = false ∧
      default_initializable W T = false) := by
  have hd := destructible_object W hobj harr
  constructor
  · rw [hd]
    simp
  · intro h
    have h1 : destructible W T = false := by
      rw [hd]
      simpa using h
    have h2 : ∀ As, constructible_from W T As = false :=
      fun As => constructible_from_eq_false W As h1
    refine ⟨h1, h2, h2 [T], ?_, ?_⟩
    · simp [copy_constructible, move_constructible, h2 [T]]
    · simp [default_initializable, h2 []]

/-- Claim C18 in the sample unit: a deleted destructor (`Pinned`) and a
destructor declared `noexcept(false)` (`Thrower`) make the class not
destructible and not constructible, although `Thrower` can be initialised
from a `Thrower`; `int` is destructible. -/
theorem C18_destructible_object_witness :
    sample.destructor_call Pinned = none ∧
    sample.destructor_call Thrower = some false ∧
    sample.init Thrower [declval Thrower] = some true ∧
    (destructible sample Thrower = false ∧
      (∀ As, constructible_from sample Thrower As = false) ∧
      move_constructible sample Thrower = false ∧
      copy_constructible sample Thrower = false ∧
      default_initializable sample Thrower = false) ∧
    (destructible sample Pinned = false ∧
      (∀ As, constructible_from sample Pinned As = false) ∧
      move_constructible sample Pinned = false ∧
      copy_constructible sample Pinned = false ∧
      default_initializable sample Pinned = false) ∧
    destructible sample int_ = true :=
  ⟨rfl, rfl, rfl,
   (C18_destructible_object sample Thrower rfl rfl).2 (by decide),
   (C18_destructible_object sample Pinned rfl rfl).2 (by decide),
   (C18_destructible_object sample int_ rfl rfl).1.2 rfl⟩

/-! ## Types that are not object types -/

/-- Claim C19. For a type that is not an object type, `movable`, `copyable`,
`semiregular` and `regular` are false, whatever the other conjuncts are. -/
theorem C19_non_object_not_movable (W : World) (T : CppType)
    (h : is_object_v T = false) :
    movable W T = false ∧ copyable W T = false ∧
    semiregular W T = false ∧ regular W T = false := by
  have h1 : movable W T = false := by simp [movable, h]
  have h2 := eq_false_of_imp_false (movable_of_copyable W T) h1
  have h3 := eq_false_of_imp_false (copyable_of_semiregular W T) h2
  have h4 := eq_false_of_imp_false (semiregular_of_regular W T) h3
  exact ⟨h1, h2, h3, h4⟩

/-- Claim C19 at `int&`, for which `move_constructible<int&>`,
`assignable_from<int&, int&>` (the collapsed `(int&)&`) and `swappable<int&>`
hold, and at `void` and a function type. -/
theorem C19_non_object_not_movable_witness :
    move_constructible sample (.lref int_) = true ∧
    add_lref (.lref int_) = some (.lref int_) ∧
    assignable_from sample (.lref int_) (.lref int_) = true ∧
    swappable sample (.lref int_) = true ∧
    (movable sample (.lref int_) = false ∧ copyable sample (.lref int_) = false ∧
      semiregular sample (.lref int_) = false ∧ regular sample (.lref int_) = false) ∧
    (movable sample .void = false ∧ copyable sample .void = false ∧
      semiregular sample .void = false ∧ regular sample .void = false) ∧
    (movable sample (.func 0) = false ∧ copyable sample (.func 0) = false ∧
      semiregular sample (.func 0) = false ∧ regular sample (.func 0) = false) :=
  ⟨by decide, rfl, by decide, by decide,
   C19_non_object_not_movable sample (.lref int_) rfl,
   C19_non_object_not_movable sample .void rfl,
   C19_non_object_not_movable sample (.func 0) rfl⟩

/-! ## `__none_of` -/

theorem __none_of_eq_not (cfg : Config) (T : CppType) :
    ∀ Cs : List CppType, __none_of cfg T Cs = !__one_of cfg T Cs
  | [] => rfl
  | C :: Cs => by
      have ih := __none_of_eq_not cfg T Cs
      simp only [__none_of, __one_of, List.foldr_cons] at ih ⊢
      rw [ih, Bool.not_or]

/-- Claim C20. `__none_of<T, Cs...>` is the negation of `__one_of<T, Cs...>`;
on the empty list `__one_of` is false, `__all_of` and `__none_of` are true;
and on a list that is not empty `__all_of` implies `__one_of`. -/
theorem C20_none_of (cfg : Config) (T : CppType) (Cs : List CppType) :
    __none_of cfg T Cs = (!__one_of cfg T Cs) ∧
    __one_of cfg T [] = false ∧
    __all_of cfg T [] = true ∧
    __none_of cfg T [] = true ∧
    (Cs ≠ [] → __all_of cfg T Cs = true → __one_of cfg T Cs = true) := by
  refine ⟨__none_of_eq_not cfg T Cs, rfl, rfl, rfl, ?_⟩
  intro hne hall
  rw [__all_of_iff] at hall
  rw [__one_of_iff]
  cases Cs with
  | nil => exact absurd rfl hne
  | cons C Cs => exact ⟨C, List.mem_cons_self C Cs, hall C (List.mem_cons_self C Cs)⟩

/-- Claim C20 at `int` against the lists `int, int` and `float, double`. -/
theorem C20_none_of_witness :
    __all_of sample.cfg int_ [int_, int_] = true ∧
    __one_of sample.cfg int_ [int_, int_] = true ∧
    __none_of sample.cfg int_ [int_, int_] = false ∧
    __none_of sample.cfg int_ [float_, double_] = true :=
  ⟨by decide,
   (C20_none_of sample.cfg int_ [int_, int_]).2.2.2.2 (by simp) (by decide),
   by decide, by decide⟩

/-! ## The `noexcept` specifier of the customization point -/

theorem resolve_swap_some {W : World} {a b : Expr} {c : SwapCall}
    (h : resolve_swap W a b = some c) :
    (c.target = .bespoke → W.adl_swap a b = some c.nothrow) ∧
    (c.target = .generic →
      W.adl_swap a b = none ∧ std_swap W a.ty = some c.nothrow) := by
  unfold resolve_swap at h
  cases ha : W.adl_swap a b with
  | some n =>
    simp only [ha, Option.some.injEq] at h
    subst h
    exact ⟨fun _ => rfl, fun hc => by cases hc⟩
  | none =>
    simp only [ha] at h
    split at h
    · cases hs : std_swap W a.ty with
      | none => simp [hs] at h
      | some n =>
        simp only [hs, Option.some.injEq] at h
        subst h
        exact ⟨fun hc => (by cases hc), fun _ => ⟨rfl, rfl⟩⟩
    · cases h

/-- Claim C14. When the call `swap(t, u)` of the customization point is
well-formed and resolves to the call `c` (of an associated overload or of
`std::swap`), its `noexcept` specifier has the value of `c`: the call is
`noexcept` exactly when the resolved operation is, for the same forwarded
arguments. -/
theorem C14_cpo_noexcept (W : World) (t u : Expr) (c : SwapCall)
    (h : swap W t u = .calls c) :
    (∃ a b, forward_expr (deduce_forwarding t) = some a ∧
      forward_expr (deduce_forwarding u) = some b ∧
      resolve_swap W a b = some c ∧
      (c.target = .bespoke → W.adl_swap a b = some c.nothrow) ∧
      (c.target = .generic →
        W.adl_swap a b = none ∧ std_swap W a.ty = some c.nothrow)) ∧
    __fn_noexcept W t u = some c.nothrow ∧
    (__fn_noexcept W t u = some true ↔ c.nothrow = true) := by
  simp only [swap, __fn] at h
  split at h
  · cases ha : forward_expr (deduce_forwarding t) with
    | none => simp [ha] at h
    | some a =>
      cases hb : forward_expr (deduce_forwarding u) with
      | none => simp [ha, hb] at h
      | some b =>
        simp only [ha, hb] at h
        cases hr : resolve_swap W a b with
        | none => simp [hr] at h
        | some c1 =>
          simp only [hr, CallResult.calls.injEq] at h
          subst h
          have hn : __fn_noexcept W t u = some c1.nothrow := by
            simp [__fn_noexcept, ha, hb, hr]
          refine ⟨⟨a, b, rfl, rfl, hr, resolve_swap_some hr⟩, hn, ?_⟩
          rw [hn]
          simp
  · cases h

/-- Claim C14 in the sample unit: on two `Widget` lvalues the friend `swap`,
which is `noexcept`, runs and the call is `noexcept`; on two `Heavy` lvalues
`std::swap` runs, the moves of `Heavy` may throw, and the call is not
`noexcept`. -/
theorem C14_cpo_noexcept_witness :
    swap sample ⟨.lvalue, Widget⟩ ⟨.lvalue, Widget⟩ = .calls ⟨.bespoke, true⟩ ∧
    __fn_noexcept sample ⟨.lvalue, Widget⟩ ⟨.lvalue, Widget⟩ = some true ∧
    swap sample ⟨.lvalue, Heavy⟩ ⟨.lvalue, Heavy⟩ = .calls ⟨.generic, false⟩ ∧
    std_swap sample Heavy = some false ∧
    __fn_noexcept sample ⟨.lvalue, Heavy⟩ ⟨.lvalue, Heavy⟩ = some false :=
  ⟨by decide,
   (C14_cpo_noexcept sample ⟨.lvalue, Widget⟩ ⟨.lvalue, Widget⟩ ⟨.bespoke, true⟩
     (by decide)).2.1,
   by decide, by decide,
   (C14_cpo_noexcept sample ⟨.lvalue, Heavy⟩ ⟨.lvalue, Heavy⟩ ⟨.generic, false⟩
     (by decide)).2.1⟩

/-! ## Failure-safe probing -/

theorem and_mono {a b c d : Bool} (h1 : a = true → c = true) (h2 : b = true → d = true) :
    (a && b) = true → (c && d) = true := by
  intro h
  rw [Bool.and_eq_true] at h ⊢
  exact ⟨h1 h.1, h2 h.2⟩

theorem same_as_over_mono {p2 p1 : CppType → CppType → Bool}
    (hp : weaker_primitive p2 p1) (A B : CppType) :
    same_as_over p2 A B = true → same_as_over p1 A B = true :=
  and_mono (hp A B) (hp B A)

theorem __one_of_over_mono {p2 p1 : CppType → CppType → Bool}
    (hp : weaker_primitive p2 p1) (T : CppType) (As : List CppType) :
    __one_of_over p2 T As = true → __one_of_over p1 T As = true := by
  induction As with
  | nil => exact id
  | cons A As ih =>
    simp only [__one_of_over, List.foldr_cons, Bool.or_eq_true] at ih ⊢
    rintro (h | h)
    · exact Or.inl (hp T A h)
    · exact Or.inr (ih h)

theorem __all_of_over_mono {p2 p1 : CppType → CppType → Bool}
    (hp : weaker_primitive p2 p1) (T : CppType) (Us : List CppType) :
    __all_of_over p2 T Us = true → __all_of_over p1 T Us = true := by
  induction Us with
  | nil => exact id
  | cons U Us ih =>
    simp only [__all_of_over, List.foldr_cons] at ih ⊢
    exact and_mono (hp T U) ih

theorem not_anti {a b : Bool} (h : a = true → b = true) : (!b) = true → (!a) = true := by
  cases a <;> cases b <;> simp at h ⊢

theorem __none_of_over_anti {p2 p1 : CppType → CppType → Bool}
    (hp : weaker_primitive p2 p1) (T : CppType) (Us : List CppType) :
    __none_of_over p1 T Us = true → __none_of_over p2 T Us = true := by
  induction Us with
  | nil => exact id
  | cons U Us ih =>
    simp only [__none_of_over, List.foldr_cons] at ih ⊢
    exact and_mono (not_anti (hp T U)) ih

theorem __class_over_anti {p2 p1 : CppType → CppType → Bool}
    (hp : weaker_primitive p2 p1) (C : CppType) :
    __class_over p1 C = true → __class_over p2 C = true :=
  and_mono id (not_anti (hp (add_const C) C))

theorem destructor_probe_mono {W2 W1 : World} (h : W2.weaker W1) (T : CppType) :
    (match forward_expr T with
      | some _ => W2.destructor_call T == some true
      | none => false) = true →
    (match forward_expr T with
      | some _ => W1.destructor_call T == some true
      | none => false) = true := by
  cases forward_expr T with
  | none => exact id
  | some e =>
    simp only [beq_iff_eq]
    exact h.destructor_call T

theorem __destructible_mono {W2 W1 : World} (h : W2.weaker W1) :
    ∀ T, __destructible_ W2 T = true → __destructible_ W1 T = true
  | .array t (n + 1) => by
      simp only [__destructible_]
      exact __destructible_mono h t
  | .array t 0 => by
      simp only [__destructible_]
      exact destructor_probe_mono h (.array t 0)
  | .lref _ => by simp [__destructible_]
  | .rref _ => by simp [__destructible_]
  | .void => by
      simp only [__destructible_]
      exact destructor_probe_mono h .void
  | .scalar i => by
      simp only [__destructible_]
      exact destructor_probe_mono h (.scalar i)
  | .cls i => by
      simp only [__destructible_]
      exact destructor_probe_mono h (.cls i)
  | .inst i as => by
      simp only [__destructible_]
      exact destructor_probe_mono h (.inst i as)
  | .func i => by
      simp only [__destructible_]
      exact destructor_probe_mono h (.func i)
  | .ptr t => by
      simp only [__destructible_]
      exact destructor_probe_mono h (.ptr t)
  | .const t => by
      simp only [__destructible_]
      exact destructor_probe_mono h (.const t)
  | .unbounded t => by
      simp only [__destructible_]
      exact destructor_probe_mono h (.unbounded t)

theorem destructible_mono {W2 W1 : World} (h : W2.weaker W1) (T : CppType) :
    destructible W2 T = true → destructible W1 T = true :=
  __destructible_mono h T

theorem constructible_from_mono {W2 W1 : World} (h : W2.weaker W1)
    (T : CppType) (As : List CppType) :
    constructible_from W2 T As = true → constructible_from W1 T As = true := by
  unfold constructible_from
  rw [h.cfg]
  split
  · exact and_mono (destructible_mono h T) (h.init_ok T _)
  · exact and_mono (destructible_mono h T) (h.init_ok T _)

theorem default_initializable_mono {W2 W1 : World} (h : W2.weaker W1) (T : CppType) :
    default_initializable W2 T = true → default_initializable W1 T = true :=
  and_mono (and_mono (constructible_from_mono h T []) (h.brace_init T)) (h.new_expr T)

theorem move_constructible_mono {W2 W1 : World} (h : W2.weaker W1) (T : CppType) :
    move_constructible W2 T = true → move_constructible W1 T = true :=
  constructible_from_mono h T [T]

theorem copy_constructible_mono {W2 W1 : World} (h : W2.weaker W1) (T : CppType) :
    copy_constructible W2 T = true → copy_constructible W1 T = true := by
  unfold copy_constructible
  refine and_mono (move_constructible_mono h T) ?_
  cases add_lref (add_const T) with
  | none => exact id
  | some R => exact constructible_from_mono h T [R]

theorem nothrow_constructible_from_mono {W2 W1 : World} (h : W2.weaker W1)
    (T : CppType) (As : List CppType) :
    __nothrow_constructible_from W2 T As = true →
      __nothrow_constructible_from W1 T As = true := by
  rw [nothrow_constructible_from_iff, nothrow_constructible_from_iff]
  exact fun hh => ⟨constructible_from_mono h T As hh.1, h.init_nothrow T _ hh.2⟩

theorem assign_requirement_over_mono {p2 p1 : CppType → CppType → Bool}
    {W2 W1 : World} (hp : weaker_primitive p2 p1) (h : W2.weaker W1)
    (LHS RHS : CppType) :
    assign_requirement_over p2 W2 LHS RHS = true →
      assign_requirement_over p1 W1 LHS RHS = true := by
  unfold assign_requirement_over
  cases param_expr LHS with
  | none => exact id
  | some l =>
    cases forward_expr RHS with
    | none => exact id
    | some r =>
      cases h2 : W2.assign l r with
      | none => simp [h2]
      | some q =>
        obtain ⟨R, n⟩ := q
        obtain ⟨m, hm⟩ := h.assign l r R n h2
        simp only [hm, h2]
        exact same_as_over_mono hp R LHS

theorem assignable_from_over_mono {p2 p1 : CppType → CppType → Bool}
    {W2 W1 : World} (hp : weaker_primitive p2 p1) (h : W2.weaker W1)
    (LHS RHS : CppType) :
    assignable_from_over p2 W2 LHS RHS = true →
      assignable_from_over p1 W1 LHS RHS = true :=
  and_mono id (assign_requirement_over_mono hp h LHS RHS)

theorem assignable_from_formed_over_mono {p2 p1 : CppType → CppType → Bool}
    {W2 W1 : World} (hp : weaker_primitive p2 p1) (h : W2.weaker W1)
    (L : Option CppType) (R : CppType) :
    assignable_from_formed_over p2 W2 L R = true →
      assignable_from_formed_over p1 W1 L R = true := by
  cases L with
  | none => exact id
  | some L => exact assignable_from_over_mono hp h L R

theorem std_swap_generic_mono {W2 W1 : World} (h : W2.weaker W1) (T : CppType) :
    (std_swap_generic W2 T).isSome = true → (std_swap_generic W1 T).isSome = true := by
  unfold std_swap_generic
  cases hi : W2.init T [⟨.xvalue, T⟩] with
  | none => simp
  | some n1 =>
    cases ha : W2.assign ⟨.lvalue, T⟩ ⟨.xvalue, T⟩ with
    | none => simp
    | some q =>
      obtain ⟨R, n2⟩ := q
      obtain ⟨m, hm⟩ := h.assign _ _ R n2 ha
      have hi1 := h.init_ok T [⟨.xvalue, T⟩] (by rw [hi]; rfl)
      cases hi2 : W1.init T [⟨.xvalue, T⟩] with
      | none => rw [hi2] at hi1; cases hi1
      | some k => simp [hm]

theorem std_swap_array_mono {W2 W1 : World} (h : W2.weaker W1) (e : CppType)
    (ih : (std_swap W2 e).isSome = true → (std_swap W1 e).isSome = true) :
    (match W2.adl_swap ⟨.lvalue, e⟩ ⟨.lvalue, e⟩ with
      | some n => some n
      | none => std_swap W2 e).isSome = true →
    (match W1.adl_swap ⟨.lvalue, e⟩ ⟨.lvalue, e⟩ with
      | some n => some n
      | none => std_swap W1 e).isSome = true := by
  have ha := h.adl_swap ⟨.lvalue, e⟩ ⟨.lvalue, e⟩
  cases h1 : W1.adl_swap ⟨.lvalue, e⟩ ⟨.lvalue, e⟩ with
  | some n => simp
  | none =>
    cases h2 : W2.adl_swap ⟨.lvalue, e⟩ ⟨.lvalue, e⟩ with
    | some n => rw [h1, h2] at ha; exact absurd (ha rfl) (by simp)
    | none => exact ih

theorem std_swap_mono {W2 W1 : World} (h : W2.weaker W1) :
    ∀ T, (std_swap W2 T).isSome = true → (std_swap W1 T).isSome = true
  | .array e (n + 1) => by
      simp only [std_swap]
      exact std_swap_array_mono h e (std_swap_mono h e)
  | .array e 0 => by
      simp only [std_swap]
      exact std_swap_generic_mono h (.array e 0)
  | .lref t => by
      simp only [std_swap]
      exact std_swap_generic_mono h (.lref t)
  | .rref t => by
      simp only [std_swap]
      exact std_swap_generic_mono h (.rref t)
  | .void => by
      simp only [std_swap]
      exact std_swap_generic_mono h .void
  | .scalar i => by
      simp only [std_swap]
      exact std_swap_generic_mono h (.scalar i)
  | .cls i => by
      simp only [std_swap]
      exact std_swap_generic_mono h (.cls i)
  | .inst i as => by
      simp only [std_swap]
      exact std_swap_generic_mono h (.inst i as)
  | .func i => by
      simp only [std_swap]
      exact std_swap_generic_mono h (.func i)
  | .ptr t => by
      simp only [std_swap]
      exact std_swap_generic_mono h (.ptr t)
  | .const t => by
      simp only [std_swap]
      exact std_swap_generic_mono h (.const t)
  | .unbounded t => by
      simp only [std_swap]
      exact std_swap_generic_mono h (.unbounded t)

theorem resolve_swap_mono {W2 W1 : World} (h : W2.weaker W1) (a b : Expr) :
    (resolve_swap W2 a b).isSome = true → (resolve_swap W1 a b).isSome = true := by
  unfold resolve_swap
  have ha := h.adl_swap a b
  cases h1 : W1.adl_swap a b with
  | some n => simp
  | none =>
    cases h2 : W2.adl_swap a b with
    | some n => rw [h1, h2] at ha; exact absurd (ha rfl) (by simp)
    | none =>
      simp only
      split
      · have hs := std_swap_mono h a.ty
        cases s2 : std_swap W2 a.ty with
        | none => simp
        | some n =>
          rw [s2] at hs
          cases s1 : std_swap W1 a.ty with
          | none => rw [s1] at hs; exact absurd (hs rfl) (by simp)
          | some m => simp
      · simp

theorem swappable_with_mono {W2 W1 : World} (h : W2.weaker W1) (T U : CppType) :
    swappable_with W2 T U = true → swappable_with W1 T U = true := by
  unfold swappable_with
  cases forward_expr T with
  | none => exact id
  | some t =>
    cases forward_expr U with
    | none => exact id
    | some u => exact resolve_swap_mono h t u

theorem movable_over_mono {p2 p1 : CppType → CppType → Bool}
    {W2 W1 : World} (hp : weaker_primitive p2 p1) (h : W2.weaker W1) (T : CppType) :
    movable_over p2 W2 T = true → movable_over p1 W1 T = true :=
  and_mono (and_mono (and_mono id (move_constructible_mono h T))
    (assignable_from_formed_over_mono hp h _ T)) (swappable_with_mono h T T)

theorem copyable_over_mono {p2 p1 : CppType → CppType → Bool}
    {W2 W1 : World} (hp : weaker_primitive p2 p1) (h : W2.weaker W1) (T : CppType) :
    copyable_over p2 W2 T = true → copyable_over p1 W1 T = true := by
  unfold copyable_over
  refine and_mono (and_mono (and_mono (and_mono (copy_constructible_mono h T)
    (movable_over_mono hp h T)) ?_) ?_) (assignable_from_formed_over_mono hp h _ _)
  · cases add_lref T with
    | none => exact id
    | some L => exact assignable_from_formed_over_mono hp h _ _
  · cases add_lref (add_const T) with
    | none => exact id
    | some R => exact assignable_from_formed_over_mono hp h _ _

theorem convertible_to_mono {W2 W1 : World} (h : W2.weaker W1) (A B : CppType) :
    convertible_to W2 A B = true → convertible_to W1 A B = true := by
  unfold convertible_to
  rw [h.cfg]
  split
  · exact and_mono (h.is_convertible_v A B) (h.static_cast_ok _ B)
  · exact and_mono (h.is_convertible_v A B) (and_mono id (h.static_cast_ok _ B))

theorem compare_to_bool_mono {W2 W1 : World} (h : W2.weaker W1) (op : CmpOp)
    (a b : Expr) :
    compare_to_bool W2 op a b = true → compare_to_bool W1 op a b = true := by
  unfold compare_to_bool
  cases h2 : W2.compare op a b with
  | none => simp
  | some R =>
    rw [h.compare op a b R h2]
    exact convertible_to_mono h R bool_

theorem compare_testable_mono {W2 W1 : World} (h : W2.weaker W1) (op : CmpOp)
    (a b : Expr) :
    compare_testable W2 op a b = true → compare_testable W1 op a b = true := by
  unfold compare_testable __boolean_testable_
  cases h2 : W2.compare op a b with
  | none => simp
  | some R =>
    rw [h.compare op a b R h2]
    exact convertible_to_mono h R bool_

theorem equality_comparable_mono {W2 W1 : World} (h : W2.weaker W1) (T : CppType) :
    equality_comparable W2 T = true → equality_comparable W1 T = true := by
  unfold equality_comparable
  rw [h.cfg]
  split
  · exact h.std_equality_comparable T
  · unfold equality_comparable_here
    cases const_ref_param T with
    | none => exact id
    | some t => exact and_mono (compare_to_bool_mono h _ t t) (compare_to_bool_mono h _ t t)

theorem partially_ordered_with_mono {W2 W1 : World} (h : W2.weaker W1) (T U : CppType) :
    __partially_ordered_with W2 T U = true → __partially_ordered_with W1 T U = true := by
  unfold __partially_ordered_with
  cases const_ref_param T with
  | none => exact id
  | some t =>
    cases const_ref_param U with
    | none => exact id
    | some u =>
      exact and_mono (and_mono (and_mono (and_mono (and_mono (and_mono (and_mono
        (compare_testable_mono h _ t u) (compare_testable_mono h _ t u))
        (compare_testable_mono h _ t u)) (compare_testable_mono h _ t u))
        (compare_testable_mono h _ u t)) (compare_testable_mono h _ u t))
        (compare_testable_mono h _ u t)) (compare_testable_mono h _ u t)

theorem totally_ordered_mono {W2 W1 : World} (h : W2.weaker W1) (T : CppType) :
    totally_ordered W2 T = true → totally_ordered W1 T = true :=
  and_mono (equality_comparable_mono h T) (partially_ordered_with_mono h T T)

theorem weak_identity_weaker : weaker_primitive weak_identity (__same_as sample.cfg) := by
  intro A B h
  simp only [weak_identity, Bool.and_eq_true] at h
  exact h.2

theorem sample_without_equality_weaker : sample_without_equality.weaker sample where
  cfg := rfl
  destructor_call := fun _ h => h
  init_ok := fun _ _ h => h
  init_nothrow := fun _ _ h => h
  brace_init := fun _ h => h
  new_expr := fun _ h => h
  assign := fun _ _ _ n h => ⟨n, h⟩
  adl_swap := fun _ _ h => h
  compare := by
    intro op a b R h
    cases op <;> first
      | exact h
      | (simp [sample_without_equality] at h)
  is_convertible_v := fun _ _ h => h
  static_cast_ok := fun _ _ h => h
  std_equality_comparable := fun _ h => h

/-- Claim C12, as stated, fails: `__none_of` is a composite predicate, and
weakening the identity primitive from that of the header to the primitive that
always answers `false` turns `__none_of<int, int>` from `false` to `true`. -/
theorem C12_none_of_not_monotone :
    (∀ cfg T Us, __none_of cfg T Us = __none_of_over (__same_as cfg) T Us) ∧
    ¬ (∀ (p1 p2 : CppType → CppType → Bool) (T : CppType) (Us : List CppType),
        weaker_primitive p2 p1 →
        __none_of_over p2 T Us = true → __none_of_over p1 T Us = true) := by
  refine ⟨fun _ _ _ => rfl, ?_⟩
  intro h
  have h1 := h (__same_as sample.cfg) (fun _ _ => false) int_ [int_]
    (by intro A B hAB; cases hAB) (by decide)
  revert h1
  decide

/-- Claim C12, amended. Every composite predicate other than `__none_of`
and `__class` is monotonic in the primitives: when the identity primitive `p2`
is pointwise weaker than `p1` and the answers of `W2` are pointwise weaker
than those of `W1`, a predicate that holds under `p2` and `W2` holds under
`p1` and `W1`. `__none_of` and `__class`, which negate the identity
primitive, are antitone in it. The predicates of the header are these
functions at the primitive `__same_as`. -/
theorem C12_monotone_except_negations (p2 p1 : CppType → CppType → Bool)
    (W2 W1 : World) (hp : weaker_primitive p2 p1) (hw : W2.weaker W1)
    (T U : CppType) (As : List CppType) :
    ((same_as_over p2 T U = true → same_as_over p1 T U = true) ∧
     (__decays_to_over p2 T U = true → __decays_to_over p1 T U = true) ∧
     (__one_of_over p2 T As = true → __one_of_over p1 T As = true) ∧
     (__all_of_over p2 T As = true → __all_of_over p1 T As = true)) ∧
    ((destructible W2 T = true → destructible W1 T = true) ∧
     (constructible_from W2 T As = true → constructible_from W1 T As = true) ∧
     (default_initializable W2 T = true → default_initializable W1 T = true) ∧
     (move_constructible W2 T = true → move_constructible W1 T = true) ∧
     (copy_constructible W2 T = true → copy_constructible W1 T = true) ∧
     (__nothrow_constructible_from W2 T As = true →
       __nothrow_constructible_from W1 T As = true) ∧
     (__decay_copyable W2 T = true → __decay_copyable W1 T = true) ∧
     (__nothrow_decay_copyable W2 T = true → __nothrow_decay_copyable W1 T = true) ∧
     (__movable_value W2 T = true → __movable_value W1 T = true)) ∧
    ((assignable_from_over p2 W2 T U = true → assignable_from_over p1 W1 T U = true) ∧
     (swappable_with W2 T U = true → swappable_with W1 T U = true) ∧
     (swappable W2 T = true → swappable W1 T = true) ∧
     (movable_over p2 W2 T = true → movable_over p1 W1 T = true) ∧
     (copyable_over p2 W2 T = true → copyable_over p1 W1 T = true) ∧
     (semiregular_over p2 W2 T = true → semiregular_over p1 W1 T = true) ∧
     (regular_over p2 W2 T = true → regular_over p1 W1 T = true)) ∧
    ((convertible_to W2 T U = true → convertible_to W1 T U = true) ∧
     (equality_comparable W2 T = true → equality_comparable W1 T = true) ∧
     (__partially_ordered_with W2 T U = true → __partially_ordered_with W1 T U = true) ∧
     (totally_ordered W2 T = true → totally_ordered W1 T = true)) ∧
    ((__none_of_over p1 T As = true → __none_of_over p2 T As = true) ∧
     (__class_over p1 T = true → __class_over p2 T = true)) ∧
    (same_as W1.cfg T U = same_as_over (__same_as W1.cfg) T U ∧
     __decays_to W1.cfg T U = __decays_to_over (__same_as W1.cfg) T U ∧
     __class W1.cfg T = __class_over (__same_as W1.cfg) T ∧
     __one_of W1.cfg T As = __one_of_over (__same_as W1.cfg) T As ∧
     __all_of W1.cfg T As = __all_of_over (__same_as W1.cfg) T As ∧
     __none_of W1.cfg T As = __none_of_over (__same_as W1.cfg) T As ∧
     assignable_from W1 T U = assignable_from_over (__same_as W1.cfg) W1 T U ∧
     movable W1 T = movable_over (__same_as W1.cfg) W1 T ∧
     copyable W1 T = copyable_over (__same_as W1.cfg) W1 T ∧
     semiregular W1 T = semiregular_over (__same_as W1.cfg) W1 T ∧
     regular W1 T = regular_over (__same_as W1.cfg) W1 T) := by
  have hcopy := copyable_over_mono hp hw T
  have hsemi : semiregular_over p2 W2 T = true → semiregular_over p1 W1 T = true :=
    and_mono hcopy (default_initializable_mono hw T)
  refine ⟨⟨same_as_over_mono hp T U, hp _ _, __one_of_over_mono hp T As,
      __all_of_over_mono hp T As⟩,
    ⟨destructible_mono hw T, constructible_from_mono hw T As,
      default_initializable_mono hw T, move_constructible_mono hw T,
      copy_constructible_mono hw T, nothrow_constructible_from_mono hw T As,
      constructible_from_mono hw _ _, nothrow_constructible_from_mono hw _ _,
      and_mono (move_constructible_mono hw _) (constructible_from_mono hw _ _)⟩,
    ⟨assignable_from_over_mono hp hw T U, swappable_with_mono hw T U,
      swappable_with_mono hw T T, movable_over_mono hp hw T, hcopy, hsemi,
      and_mono hsemi (equality_comparable_mono hw T)⟩,
    ⟨convertible_to_mono hw T U, equality_comparable_mono hw T,
      partially_ordered_with_mono hw T U, totally_ordered_mono hw T⟩,
    ⟨__none_of_over_anti hp T As, __class_over_anti hp T⟩,
    ⟨rfl, rfl, rfl, rfl, rfl, rfl, rfl, rfl, rfl, rfl, rfl⟩⟩

/-- Claim C12, amended, in the sample unit: with every `operator==` removed
and identity recognised on lvalue references only, `Proxy` is still
semiregular, hence it is in the sample unit; `regular` and `__one_of` are lost
by the weakening, not gained; `__none_of<int, int>` is gained. -/
theorem C12_monotone_except_negations_witness :
    weaker_primitive weak_identity (__same_as sample.cfg) ∧
    sample_without_equality.weaker sample ∧
    semiregular_over weak_identity sample_without_equality Proxy = true ∧
    semiregular_over (__same_as sample.cfg) sample Proxy = true ∧
    semiregular sample Proxy = true ∧
    regular_over weak_identity sample_without_equality Proxy = false ∧
    regular sample Proxy = true ∧
    __one_of_over weak_identity int_ [int_] = false ∧
    __one_of sample.cfg int_ [int_] = true ∧
    __none_of sample.cfg int_ [int_] = false ∧
    __none_of_over weak_identity int_ [int_] = true :=
  ⟨weak_identity_weaker, sample_without_equality_weaker,
   by decide,
   (C12_monotone_except_negations weak_identity (__same_as sample.cfg)
     sample_without_equality sample weak_identity_weaker
     sample_without_equality_weaker Proxy Proxy []).2.2.1.2.2.2.2.2.1 (by decide),
   by decide, by decide, by decide, by decide, by decide, by decide, by decide⟩

end Stdexec
